import Mathlib

/-! secadm: vnode mediation (kmod/secadm_vnode.c)

A shallow embedding of the three mediation procedures
`secadm_vnode_check_exec`, `secadm_vnode_check_open` and
`secadm_vnode_check_unlink`, followed by theorems about them.

Every procedure returns its C return code together with the list of
externally visible steps it performed (attribute fetch, pre-check, lock
operations, index lookups, verifier call, console message, enforcement
call), in program order.

The constants and the key layout come from headers that the C file only
includes (`secadm.h`, `sys/pax.h`, `sys/mount.h`); they are collected in
`Header` and are parameters of every definition.  The kernel services the
C file calls are collected in `Collaborators`.
-/

namespace Secadm

/-! ## Host constants -/

/-- The errno value `EPERM`. -/
def EPERM : Int := 1

/-- Access-mode bit `VWRITE` (octal 000200). -/
def VWRITE : Nat := 128

/-- Access-mode bit `VAPPEND` (octal 040000). -/
def VAPPEND : Nat := 16384

/-- Initial value `FNV1_32_INIT` of the 32-bit FNV hash (sys/fnv_hash.h). -/
def FNV1_32_INIT : Nat := 33554467

/-- Multiplier `FNV_32_PRIME` of the 32-bit FNV hash (sys/fnv_hash.h). -/
def FNV_32_PRIME : Nat := 16777619

/-- The host function `fnv_32_buf(buf, len, hval)` of sys/fnv_hash.h, which
the C file calls: for every byte, multiply the 32-bit state by the prime,
then xor the byte in. -/
def fnv_32_buf (buf : List Nat) (hval : Nat) : Nat :=
  buf.foldl (fun h b => ((h * FNV_32_PRIME) % 2 ^ 32) ^^^ (b % 256)) hval

/-! ## Data model -/

/-- The rule kinds the mediation code distinguishes (`sk_type`). -/
inductive secadm_rule_type_t
  | secadm_integriforce_rule
  | secadm_pax_rule
  deriving DecidableEq, Repr

/-- The composite key `secadm_key_t` that is hashed into a fingerprint. -/
structure secadm_key_t where
  sk_jid : Int
  sk_type : secadm_rule_type_t
  sk_fileid : Nat
  sk_mntonname : List Nat
  deriving DecidableEq, Repr

/-- The part of `secadm_integriforce_data_t` the mediation code reads. -/
structure secadm_integriforce_data_t where
  si_path : String
  deriving DecidableEq, Repr

/-- The part of `secadm_pax_data_t` the mediation code reads. -/
structure secadm_pax_data_t where
  sp_path : String
  sp_pax : Nat
  sp_pax_set : Nat
  deriving DecidableEq, Repr

/-- A rule `secadm_rule_t`.  In C the two data members share storage and
are read through whichever member name the code uses; here both are
fields. -/
structure secadm_rule_t where
  sr_active : Int
  sr_key : Nat
  sr_type : secadm_rule_type_t
  sr_integriforce_data : secadm_integriforce_data_t
  sr_pax_data : secadm_pax_data_t
  deriving DecidableEq, Repr

/-- The per-prison rule index `secadm_rules_tree` (colours and parent
links play no part in lookup and are left out). -/
inductive secadm_rules_tree
  | leaf
  | node (left : secadm_rules_tree) (elm : secadm_rule_t) (right : secadm_rules_tree)
  deriving DecidableEq, Repr

/-- Modelled from the spec: the comparison function of the rule index is
declared outside this file; the index is "keyed by the 32-bit
fingerprint", so `RB_FIND` descends comparing `sr_key` only, as the
`RB_FIND` loop of sys/tree.h does with such a comparison. -/
def RB_FIND : secadm_rules_tree → Nat → Option secadm_rule_t
  | .leaf, _ => none
  | .node left elm right, key =>
    if key < elm.sr_key then RB_FIND left key
    else if elm.sr_key < key then RB_FIND right key
    else some elm

/-- The per-prison entry `secadm_prison_entry_t`. -/
structure secadm_prison_entry_t where
  sp_rules : secadm_rules_tree
  sp_num_integriforce_rules : Nat
  sp_num_pax_rules : Nat
  sp_integriforce_flags : Nat
  deriving DecidableEq, Repr

/-- The file attributes `struct vattr` (only `va_fileid` is read). -/
structure vattr where
  va_fileid : Nat
  deriving DecidableEq, Repr

/-- A vnode: a handle for the host, and `v_mount->mnt_stat.f_mntonname`. -/
structure vnode where
  v_handle : Nat
  f_mntonname : List Nat
  deriving DecidableEq, Repr

/-- The acting credential: `cr_prison->pr_id`. -/
structure ucred where
  pr_id : Int
  deriving DecidableEq, Repr

/-- The image parameters: `imgp->vp` and `imgp->args->fname`. -/
structure image_params where
  vp : vnode
  fname : String
  deriving DecidableEq, Repr

/-- Constants and layout taken from the included headers. -/
structure Header where
  SECADM_INTEGRIFORCE_FLAGS_WHITELIST : Nat
  SECADM_PAX_PAGEEXEC : Nat
  SECADM_PAX_MPROTECT : Nat
  SECADM_PAX_ASLR : Nat
  SECADM_PAX_SEGVGUARD : Nat
  SECADM_PAX_SHLIBRANDOM : Nat
  SECADM_PAX_MAP32 : Nat
  SECADM_PAX_PREFER_ACL : Nat
  SECADM_PAX_PAGEEXEC_SET : Nat
  SECADM_PAX_MPROTECT_SET : Nat
  SECADM_PAX_ASLR_SET : Nat
  SECADM_PAX_SEGVGUARD_SET : Nat
  SECADM_PAX_SHLIBRANDOM_SET : Nat
  PAX_NOTE_PAGEEXEC : Nat
  PAX_NOTE_NOPAGEEXEC : Nat
  PAX_NOTE_MPROTECT : Nat
  PAX_NOTE_NOMPROTECT : Nat
  PAX_NOTE_ASLR : Nat
  PAX_NOTE_NOASLR : Nat
  PAX_NOTE_SEGVGUARD : Nat
  PAX_NOTE_NOSEGVGUARD : Nat
  PAX_NOTE_SHLIBRANDOM : Nat
  PAX_NOTE_NOSHLIBRANDOM : Nat
  PAX_NOTE_DISALLOWMAP32BIT : Nat
  PAX_NOTE_NODISALLOWMAP32BIT : Nat
  /-- Present only on hosts that define `PAX_NOTE_PREFER_ACL`. -/
  PAX_NOTE_PREFER_ACL : Option Nat
  MNAMELEN : Nat
  /-- The object representation of a key: the `sizeof(secadm_key_t)`
  bytes that `fnv_32_buf` reads. -/
  key_bytes : secadm_key_t → List Nat

/-- The kernel services the mediation code calls.  Each yields the C
return value; `VOP_GETATTR` also yields the attributes it fills in. -/
structure Collaborators where
  VOP_GETATTR : vnode → ucred → Int × vattr
  get_prison_list_entry : Int → secadm_prison_entry_t
  tpe_check : image_params → secadm_prison_entry_t → Int
  do_integriforce_check : secadm_rule_t → vattr → vnode → ucred → Int
  pax_elf : image_params → Nat → Int

/-- The externally visible steps of a mediation call. -/
inductive Event
  | VOP_GETATTR (vp : vnode)
  | tpe_check
  | PE_RLOCK
  | PE_RUNLOCK
  | RB_FIND (key : Nat)
  | do_integriforce_check (rule : secadm_rule_t)
  | printf_whitelist (fname : String)
  | printf_modification (path : String)
  | printf_unlink (path : String)
  | secadm_pax_elf (flags : Nat)
  deriving DecidableEq, Repr

/-! ## Key builder -/

/-- The call `strncpy(dst, src, n)`: the characters of `src` before its
terminator, at most `n` of them, padded with zero bytes to length `n`. -/
def strncpy (src : List Nat) (n : Nat) : List Nat :=
  let s := (src.takeWhile (fun ch => ch ≠ 0)).take n
  s ++ List.replicate (n - s.length) 0

/-- The key the three procedures fill in before a lookup. -/
def build_key (c : Header) (cred : ucred) (vap : vattr) (vp : vnode)
    (t : secadm_rule_type_t) : secadm_key_t :=
  { sk_jid := cred.pr_id
    sk_type := t
    sk_fileid := vap.va_fileid
    sk_mntonname := strncpy vp.f_mntonname c.MNAMELEN }

/-- The value stored in `r.sr_key` before a lookup:
`fnv_32_buf(&key, sizeof(secadm_key_t), FNV1_32_INIT)`. -/
def fingerprint (c : Header) (key : secadm_key_t) : Nat :=
  fnv_32_buf (c.key_bytes key) FNV1_32_INIT

/-! ## Exec mediation -/

/-- The wrapper `secadm_pax_elf`: it forwards the flags to the host
enforcement entry point selected at build time. -/
def secadm_pax_elf (h : Collaborators) (imgp : image_params) (flags : Nat) : Int :=
  h.pax_elf imgp flags

/-- Lines 131-203 of `secadm_vnode_check_exec`: translation of a PaX rule
into note flags, starting from `flags`. -/
def pax_flags (c : Header) (d : secadm_pax_data_t) (flags : Nat) : Nat :=
  let flags :=
    if d.sp_pax_set &&& c.SECADM_PAX_PAGEEXEC_SET ≠ 0 then
      if d.sp_pax &&& c.SECADM_PAX_PAGEEXEC ≠ 0 then flags ||| c.PAX_NOTE_PAGEEXEC
      else flags ||| c.PAX_NOTE_NOPAGEEXEC
    else flags
  let flags :=
    if d.sp_pax_set &&& c.SECADM_PAX_MPROTECT_SET ≠ 0 then
      if d.sp_pax &&& c.SECADM_PAX_MPROTECT ≠ 0 then flags ||| c.PAX_NOTE_MPROTECT
      else flags ||| c.PAX_NOTE_NOMPROTECT
    else flags
  let flags :=
    if d.sp_pax_set &&& c.SECADM_PAX_ASLR_SET ≠ 0 then
      if d.sp_pax &&& c.SECADM_PAX_ASLR ≠ 0 then flags ||| c.PAX_NOTE_ASLR
      else flags ||| c.PAX_NOTE_NOASLR
    else flags
  let flags :=
    if d.sp_pax_set &&& c.SECADM_PAX_SEGVGUARD_SET ≠ 0 then
      if d.sp_pax &&& c.SECADM_PAX_SEGVGUARD ≠ 0 then flags ||| c.PAX_NOTE_SEGVGUARD
      else flags ||| c.PAX_NOTE_NOSEGVGUARD
    else flags
  let flags :=
    if d.sp_pax_set &&& c.SECADM_PAX_SHLIBRANDOM_SET ≠ 0 then
      if d.sp_pax &&& c.SECADM_PAX_SHLIBRANDOM ≠ 0 then flags ||| c.PAX_NOTE_SHLIBRANDOM
      else flags ||| c.PAX_NOTE_NOSHLIBRANDOM
    else flags
  let flags :=
    if d.sp_pax_set &&& c.SECADM_PAX_MAP32 ≠ 0 then
      if d.sp_pax &&& c.SECADM_PAX_MAP32 ≠ 0 then flags ||| c.PAX_NOTE_DISALLOWMAP32BIT
      else flags ||| c.PAX_NOTE_NODISALLOWMAP32BIT
    else flags
  match c.PAX_NOTE_PREFER_ACL with
  | none => flags
  | some acl =>
    if d.sp_pax_set &&& c.SECADM_PAX_PREFER_ACL ≠ 0 then
      if d.sp_pax &&& c.SECADM_PAX_PREFER_ACL ≠ 0 then flags ||| acl
      else flags ^^^ (flags &&& acl)
    else flags

/-- Label `rule_inactive` of `secadm_vnode_check_exec` (lines 206-212). -/
def exec_rule_inactive (h : Collaborators) (imgp : image_params)
    (tr : List Event) (err : Int) (flags : Nat) : Int × List Event :=
  let tr := tr ++ [Event.PE_RUNLOCK]
  if err = 0 ∧ flags ≠ 0 then
    (secadm_pax_elf h imgp flags, tr ++ [Event.secadm_pax_elf flags])
  else (err, tr)

/-- Lines 121-205 of `secadm_vnode_check_exec`, then the label
`rule_inactive`. -/
def exec_pax_rules (c : Header) (h : Collaborators) (entry : secadm_prison_entry_t)
    (key : secadm_rule_type_t → secadm_key_t) (imgp : image_params)
    (tr : List Event) (err : Int) : Int × List Event :=
  if entry.sp_num_pax_rules ≠ 0 then
    let k := fingerprint c (key .secadm_pax_rule)
    let tr := tr ++ [Event.RB_FIND k]
    match RB_FIND entry.sp_rules k with
    | some rule =>
      if rule.sr_active = 0 then exec_rule_inactive h imgp tr err 0
      else exec_rule_inactive h imgp tr err (pax_flags c rule.sr_pax_data 0)
    | none => exec_rule_inactive h imgp tr err 0
  else exec_rule_inactive h imgp tr err 0

/-- The procedure `secadm_vnode_check_exec` (the labels and the `vp`
argument are not used by the C code; `vp` is kept). -/
def secadm_vnode_check_exec (c : Header) (h : Collaborators) (cred : ucred)
    (_vp : vnode) (imgp : image_params) : Int × List Event :=
  let ga := h.VOP_GETATTR imgp.vp cred
  let tr := [Event.VOP_GETATTR imgp.vp]
  if ga.1 ≠ 0 then (ga.1, tr)
  else
    let key := build_key c cred ga.2 imgp.vp
    let entry := h.get_prison_list_entry cred.pr_id
    let err := h.tpe_check imgp entry
    let tr := tr ++ [Event.tpe_check]
    if err ≠ 0 then (err, tr)
    else
      let tr := tr ++ [Event.PE_RLOCK]
      if entry.sp_num_integriforce_rules ≠ 0 then
        let k := fingerprint c (key .secadm_integriforce_rule)
        let tr := tr ++ [Event.RB_FIND k]
        match RB_FIND entry.sp_rules k with
        | some rule =>
          if rule.sr_active = 0 then exec_rule_inactive h imgp tr err 0
          else
            let tr := tr ++ [Event.PE_RUNLOCK]
            let err := h.do_integriforce_check rule ga.2 imgp.vp cred
            let tr := tr ++ [Event.do_integriforce_check rule, Event.PE_RLOCK]
            if err ≠ 0 then (err, tr ++ [Event.PE_RUNLOCK])
            else exec_pax_rules c h entry key imgp tr err
        | none =>
          if entry.sp_integriforce_flags &&& c.SECADM_INTEGRIFORCE_FLAGS_WHITELIST
              = c.SECADM_INTEGRIFORCE_FLAGS_WHITELIST then
            (EPERM, tr ++ [Event.PE_RUNLOCK, Event.printf_whitelist imgp.fname])
          else exec_pax_rules c h entry key imgp tr err
      else exec_pax_rules c h entry key imgp tr err

/-- Lines 121-205 of `secadm_vnode_check_exec`, up to the label
`rule_inactive`: the steps performed and the flags accumulated when control
reaches the label. -/
def exec_pax_flags (c : Header) (entry : secadm_prison_entry_t)
    (key : secadm_rule_type_t → secadm_key_t) (tr : List Event) : List Event × Nat :=
  if entry.sp_num_pax_rules ≠ 0 then
    let k := fingerprint c (key .secadm_pax_rule)
    let tr := tr ++ [Event.RB_FIND k]
    match RB_FIND entry.sp_rules k with
    | some rule =>
      if rule.sr_active = 0 then (tr, 0)
      else (tr, pax_flags c rule.sr_pax_data 0)
    | none => (tr, 0)
  else (tr, 0)

/-- Lines 76-205 of `secadm_vnode_check_exec`, up to the label
`rule_inactive`: either the procedure returns before the label (left: the
return code and the steps performed), or control reaches the label (right:
the steps performed so far and the accumulated flags; `err` is 0 there). -/
def exec_rules (c : Header) (h : Collaborators) (cred : ucred) (imgp : image_params) :
    (Int × List Event) ⊕ (List Event × Nat) :=
  let ga := h.VOP_GETATTR imgp.vp cred
  let tr := [Event.VOP_GETATTR imgp.vp]
  if ga.1 ≠ 0 then .inl (ga.1, tr)
  else
    let key := build_key c cred ga.2 imgp.vp
    let entry := h.get_prison_list_entry cred.pr_id
    let err := h.tpe_check imgp entry
    let tr := tr ++ [Event.tpe_check]
    if err ≠ 0 then .inl (err, tr)
    else
      let tr := tr ++ [Event.PE_RLOCK]
      if entry.sp_num_integriforce_rules ≠ 0 then
        let k := fingerprint c (key .secadm_integriforce_rule)
        let tr := tr ++ [Event.RB_FIND k]
        match RB_FIND entry.sp_rules k with
        | some rule =>
          if rule.sr_active = 0 then .inr (tr, 0)
          else
            let tr := tr ++ [Event.PE_RUNLOCK]
            let err := h.do_integriforce_check rule ga.2 imgp.vp cred
            let tr := tr ++ [Event.do_integriforce_check rule, Event.PE_RLOCK]
            if err ≠ 0 then .inl (err, tr ++ [Event.PE_RUNLOCK])
            else .inr (exec_pax_flags c entry key tr)
        | none =>
          if entry.sp_integriforce_flags &&& c.SECADM_INTEGRIFORCE_FLAGS_WHITELIST
              = c.SECADM_INTEGRIFORCE_FLAGS_WHITELIST then
            .inl (EPERM, tr ++ [Event.PE_RUNLOCK, Event.printf_whitelist imgp.fname])
          else .inr (exec_pax_flags c entry key tr)
      else .inr (exec_pax_flags c entry key tr)

/-! ## Write-open mediation -/

/-- The procedure `secadm_vnode_check_open`. -/
def secadm_vnode_check_open (c : Header) (h : Collaborators) (cred : ucred)
    (vp : vnode) (accmode : Nat) : Int × List Event :=
  if accmode &&& (VWRITE ||| VAPPEND) = 0 then (0, [])
  else
    let ga := h.VOP_GETATTR vp cred
    let tr := [Event.VOP_GETATTR vp]
    if ga.1 ≠ 0 then (ga.1, tr)
    else
      let key := build_key c cred ga.2 vp
      let entry := h.get_prison_list_entry cred.pr_id
      let tr := tr ++ [Event.PE_RLOCK]
      if entry.sp_num_integriforce_rules ≠ 0 then
        let k := fingerprint c (key .secadm_integriforce_rule)
        let tr := tr ++ [Event.RB_FIND k]
        match RB_FIND entry.sp_rules k with
        | some rule =>
          if rule.sr_active ≠ 0 ∨
              entry.sp_integriforce_flags &&& c.SECADM_INTEGRIFORCE_FLAGS_WHITELIST ≠ 0 then
            (EPERM, tr ++ [Event.printf_modification rule.sr_integriforce_data.si_path,
              Event.PE_RUNLOCK])
          else (0, tr ++ [Event.PE_RUNLOCK])
        | none => (0, tr ++ [Event.PE_RUNLOCK])
      else (0, tr ++ [Event.PE_RUNLOCK])

/-! ## Unlink mediation -/

/-- Lines 310-328 of `secadm_vnode_check_unlink`: the PaX rule check and
the final return. -/
def unlink_pax_rules (c : Header) (entry : secadm_prison_entry_t)
    (key : secadm_rule_type_t → secadm_key_t) (tr : List Event) : Int × List Event :=
  if entry.sp_num_pax_rules ≠ 0 then
    let k := fingerprint c (key .secadm_pax_rule)
    let tr := tr ++ [Event.RB_FIND k]
    match RB_FIND entry.sp_rules k with
    | some rule =>
      if rule.sr_active ≠ 0 then
        (EPERM, tr ++ [Event.printf_unlink rule.sr_pax_data.sp_path, Event.PE_RUNLOCK])
      else (0, tr ++ [Event.PE_RUNLOCK])
    | none => (0, tr ++ [Event.PE_RUNLOCK])
  else (0, tr ++ [Event.PE_RUNLOCK])

/-- The procedure `secadm_vnode_check_unlink` (the directory vnode, the
labels and the component name are not used by the C code). -/
def secadm_vnode_check_unlink (c : Header) (h : Collaborators) (cred : ucred)
    (_dvp : vnode) (vp : vnode) : Int × List Event :=
  let ga := h.VOP_GETATTR vp cred
  let tr := [Event.VOP_GETATTR vp]
  if ga.1 ≠ 0 then (ga.1, tr)
  else
    let entry := h.get_prison_list_entry cred.pr_id
    let key := build_key c cred ga.2 vp
    let tr := tr ++ [Event.PE_RLOCK]
    if entry.sp_num_integriforce_rules ≠ 0 then
      let k := fingerprint c (key .secadm_integriforce_rule)
      let tr := tr ++ [Event.RB_FIND k]
      match RB_FIND entry.sp_rules k with
      | some rule =>
        if rule.sr_active ≠ 0 ∨
            entry.sp_integriforce_flags &&& c.SECADM_INTEGRIFORCE_FLAGS_WHITELIST ≠ 0 then
          (EPERM, tr ++ [Event.printf_unlink rule.sr_integriforce_data.si_path,
            Event.PE_RUNLOCK])
        else unlink_pax_rules c entry key tr
      | none => unlink_pax_rules c entry key tr
    else unlink_pax_rules c entry key tr

/-! ## Vocabulary of the properties -/

/-- The prison entry the procedures resolve for a credential. -/
def prison (h : Collaborators) (cred : ucred) : secadm_prison_entry_t :=
  h.get_prison_list_entry cred.pr_id

/-- The fingerprint the procedures compute for the file `vp` and the rule
kind `t`, from the attributes the host reports for `vp`. -/
def file_fp (c : Header) (h : Collaborators) (cred : ucred) (vp : vnode)
    (t : secadm_rule_type_t) : Nat :=
  fingerprint c (build_key c cred (h.VOP_GETATTR vp cred).2 vp t)

/-- The rule the prison's index holds for the file under the given kind,
if any. -/
def file_rule (c : Header) (h : Collaborators) (cred : ucred) (vp : vnode)
    (t : secadm_rule_type_t) : Option secadm_rule_t :=
  RB_FIND (prison h cred).sp_rules (file_fp c h cred vp t)

/-- Whitelist mode is set in the prison entry. -/
def whitelist_mode (c : Header) (entry : secadm_prison_entry_t) : Prop :=
  entry.sp_integriforce_flags &&& c.SECADM_INTEGRIFORCE_FLAGS_WHITELIST ≠ 0

instance (c : Header) (entry : secadm_prison_entry_t) : Decidable (whitelist_mode c entry) := by
  unfold whitelist_mode
  infer_instance

/-- The twelve note flags of the six features, in source order. -/
def pax_notes (c : Header) : List Nat :=
  [c.PAX_NOTE_PAGEEXEC, c.PAX_NOTE_NOPAGEEXEC, c.PAX_NOTE_MPROTECT, c.PAX_NOTE_NOMPROTECT,
   c.PAX_NOTE_ASLR, c.PAX_NOTE_NOASLR, c.PAX_NOTE_SEGVGUARD, c.PAX_NOTE_NOSEGVGUARD,
   c.PAX_NOTE_SHLIBRANDOM, c.PAX_NOTE_NOSHLIBRANDOM,
   c.PAX_NOTE_DISALLOWMAP32BIT, c.PAX_NOTE_NODISALLOWMAP32BIT]

/-- The note flags are non-zero and share no bit with one another, nor
with the ACL-preference flag where the host has one. -/
def pax_notes_distinct (c : Header) : Prop :=
  (∀ a ∈ pax_notes c, a ≠ 0) ∧
  List.Pairwise (fun a b => a &&& b = 0) (pax_notes c) ∧
  (∀ acl, c.PAX_NOTE_PREFER_ACL = some acl → ∀ a ∈ pax_notes c, acl &&& a = 0)

/-- The masks the translation tests against `sp_pax_set`, in source
order. -/
def pax_set_masks (c : Header) : List Nat :=
  [c.SECADM_PAX_PAGEEXEC_SET, c.SECADM_PAX_MPROTECT_SET, c.SECADM_PAX_ASLR_SET,
   c.SECADM_PAX_SEGVGUARD_SET, c.SECADM_PAX_SHLIBRANDOM_SET, c.SECADM_PAX_MAP32,
   c.SECADM_PAX_PREFER_ACL]

/-- The masks tested against `sp_pax_set` are non-zero and share no bit
with one another. -/
def pax_set_masks_distinct (c : Header) : Prop :=
  (∀ a ∈ pax_set_masks c, a ≠ 0) ∧
  List.Pairwise (fun a b => a &&& b = 0) (pax_set_masks c)

/-- The six features as the translation reads them: the mask tested
against `sp_pax_set`, the mask tested against `sp_pax`, the force-on note
flag and the force-off note flag. -/
def pax_features (c : Header) : List (Nat × Nat × Nat × Nat) :=
  [(c.SECADM_PAX_PAGEEXEC_SET, c.SECADM_PAX_PAGEEXEC,
      c.PAX_NOTE_PAGEEXEC, c.PAX_NOTE_NOPAGEEXEC),
   (c.SECADM_PAX_MPROTECT_SET, c.SECADM_PAX_MPROTECT,
      c.PAX_NOTE_MPROTECT, c.PAX_NOTE_NOMPROTECT),
   (c.SECADM_PAX_ASLR_SET, c.SECADM_PAX_ASLR,
      c.PAX_NOTE_ASLR, c.PAX_NOTE_NOASLR),
   (c.SECADM_PAX_SEGVGUARD_SET, c.SECADM_PAX_SEGVGUARD,
      c.PAX_NOTE_SEGVGUARD, c.PAX_NOTE_NOSEGVGUARD),
   (c.SECADM_PAX_SHLIBRANDOM_SET, c.SECADM_PAX_SHLIBRANDOM,
      c.PAX_NOTE_SHLIBRANDOM, c.PAX_NOTE_NOSHLIBRANDOM),
   (c.SECADM_PAX_MAP32, c.SECADM_PAX_MAP32,
      c.PAX_NOTE_DISALLOWMAP32BIT, c.PAX_NOTE_NODISALLOWMAP32BIT)]

/-- The step is a call of the enforcement entry point. -/
def is_enforcement : Event → Bool
  | .secadm_pax_elf _ => true
  | _ => false

/-- The step is an index lookup. -/
def is_lookup : Event → Bool
  | .RB_FIND _ => true
  | _ => false

/-- The step is a call of the verifier. -/
def is_verifier : Event → Bool
  | .do_integriforce_check _ => true
  | _ => false

/-- The read lock as explicit state: `some held` while the discipline has
been kept, `none` once it has been broken.  Acquiring while held, releasing
while not held and calling the verifier while held break it. -/
def lock_step : Option Bool → Event → Option Bool
  | none, _ => none
  | some held, .PE_RLOCK => if held then none else some true
  | some held, .PE_RUNLOCK => if held then some false else none
  | some held, .do_integriforce_check _ => if held then none else some held
  | some held, _ => some held

/-- The state of the read lock after a sequence of steps that starts with
the lock not held. -/
def lock_run (tr : List Event) : Option Bool :=
  tr.foldl lock_step (some false)

/-! ## A concrete host, used to exercise the theorems -/

/-- Little-endian bytes of `n`, `w` of them. -/
def le_bytes : Nat → Nat → List Nat
  | 0, _ => []
  | w + 1, n => (n % 256) :: le_bytes w (n / 256)

/-- A key layout: 32-bit jail id, 32-bit kind, 64-bit file id, mount name. -/
def sample_key_bytes (key : secadm_key_t) : List Nat :=
  le_bytes 4 (key.sk_jid % 2 ^ 32).toNat ++
  le_bytes 4 (match key.sk_type with
    | .secadm_integriforce_rule => 0
    | .secadm_pax_rule => 1) ++
  le_bytes 8 key.sk_fileid ++ key.sk_mntonname

/-- One assignment of the header constants. -/
def sample_header : Header :=
  { SECADM_INTEGRIFORCE_FLAGS_WHITELIST := 1
    SECADM_PAX_PAGEEXEC := 1
    SECADM_PAX_MPROTECT := 2
    SECADM_PAX_ASLR := 4
    SECADM_PAX_SEGVGUARD := 8
    SECADM_PAX_SHLIBRANDOM := 16
    SECADM_PAX_MAP32 := 32
    SECADM_PAX_PREFER_ACL := 64
    SECADM_PAX_PAGEEXEC_SET := 256
    SECADM_PAX_MPROTECT_SET := 512
    SECADM_PAX_ASLR_SET := 1024
    SECADM_PAX_SEGVGUARD_SET := 2048
    SECADM_PAX_SHLIBRANDOM_SET := 4096
    PAX_NOTE_PAGEEXEC := 1
    PAX_NOTE_NOPAGEEXEC := 2
    PAX_NOTE_MPROTECT := 4
    PAX_NOTE_NOMPROTECT := 8
    PAX_NOTE_SEGVGUARD := 16
    PAX_NOTE_NOSEGVGUARD := 32
    PAX_NOTE_ASLR := 64
    PAX_NOTE_NOASLR := 128
    PAX_NOTE_SHLIBRANDOM := 256
    PAX_NOTE_NOSHLIBRANDOM := 512
    PAX_NOTE_DISALLOWMAP32BIT := 1024
    PAX_NOTE_NODISALLOWMAP32BIT := 2048
    PAX_NOTE_PREFER_ACL := some 4096
    MNAMELEN := 8
    key_bytes := sample_key_bytes }

/-- A host whose attribute fetch fails with error 5 on the vnode with
handle 0 and otherwise reports the handle as file id; the prison entry and
the return values of the other services are given. -/
def sample_host (entry : secadm_prison_entry_t) (tpe chk pax : Int) : Collaborators :=
  { VOP_GETATTR := fun vp _ => (if vp.v_handle = 0 then 5 else 0, { va_fileid := vp.v_handle })
    get_prison_list_entry := fun _ => entry
    tpe_check := fun _ _ => tpe
    do_integriforce_check := fun _ _ _ _ => chk
    pax_elf := fun _ _ => pax }

/-- A credential of jail 3. -/
def sample_cred : ucred := { pr_id := 3 }

/-- A file on the root mount. -/
def sample_vp : vnode := { v_handle := 42, f_mntonname := [47] }

/-- A file whose attributes cannot be fetched by `sample_host`. -/
def sample_bad_vp : vnode := { v_handle := 0, f_mntonname := [47] }

/-- Image parameters for executing `sample_vp`. -/
def sample_imgp : image_params := { vp := sample_vp, fname := "/bin/ls" }

/-- Image parameters for executing `sample_bad_vp`. -/
def sample_bad_imgp : image_params := { vp := sample_bad_vp, fname := "/bin/ls" }

/-- A rule stored under the fingerprint `k`. -/
def sample_rule (k : Nat) (t : secadm_rule_type_t) (active : Int) (pax pax_set : Nat) :
    secadm_rule_t :=
  { sr_active := active
    sr_key := k
    sr_type := t
    sr_integriforce_data := { si_path := "/bin/ls" }
    sr_pax_data := { sp_path := "/bin/ls", sp_pax := pax, sp_pax_set := pax_set } }

/-- The Integrity-kind fingerprint of `sample_vp` for `sample_cred`. -/
def sample_fp_integriforce : Nat :=
  fingerprint sample_header
    (build_key sample_header sample_cred { va_fileid := 42 } sample_vp .secadm_integriforce_rule)

/-- The PaX-kind fingerprint of `sample_vp` for `sample_cred`. -/
def sample_fp_pax : Nat :=
  fingerprint sample_header
    (build_key sample_header sample_cred { va_fileid := 42 } sample_vp .secadm_pax_rule)

/-- The empty prison entry with the given whitelist flags. -/
def sample_empty_entry (flags : Nat) : secadm_prison_entry_t :=
  { sp_rules := .leaf
    sp_num_integriforce_rules := 0
    sp_num_pax_rules := 0
    sp_integriforce_flags := flags }

/-! ## Theorems -/

/-- C8: an access mode with neither `VWRITE` nor `VAPPEND` makes
`secadm_vnode_check_open` return 0 at once, for every host and prison
state: no attribute fetch, no lookup, no message, nothing at all is
performed. -/
theorem check_open_fast_path (c : Header) (h : Collaborators) (cred : ucred)
    (vp : vnode) (accmode : Nat) (hmode : accmode &&& (VWRITE ||| VAPPEND) = 0) :
    secadm_vnode_check_open c h cred vp accmode = (0, []) := by
  simp [secadm_vnode_check_open, hmode]

/-- C8 exercised: a read-only open of a file whose attribute fetch would
fail, in a prison, with whitelist mode set, whose index holds an active
Integrity rule for a file. -/
theorem check_open_fast_path_witness :
    256 &&& (VWRITE ||| VAPPEND) = 0 ∧
    secadm_vnode_check_open sample_header
      (sample_host
        { sp_rules := .node .leaf
            (sample_rule sample_fp_integriforce .secadm_integriforce_rule 1 0 0) .leaf
          sp_num_integriforce_rules := 1
          sp_num_pax_rules := 0
          sp_integriforce_flags := 1 } 0 0 0)
      sample_cred sample_bad_vp 256 = (0, []) :=
  ⟨by decide, check_open_fast_path _ _ _ _ _ (by decide)⟩

/-- C9: when the attribute fetch succeeds and `tpe_check` returns a
non-zero error, `secadm_vnode_check_exec` returns exactly that error
having performed the attribute fetch and the pre-check only. -/
theorem check_exec_tpe_denied (c : Header) (h : Collaborators) (cred : ucred)
    (vp : vnode) (imgp : image_params)
    (hga : (h.VOP_GETATTR imgp.vp cred).1 = 0)
    (htpe : h.tpe_check imgp (prison h cred) ≠ 0) :
    secadm_vnode_check_exec c h cred vp imgp =
      (h.tpe_check imgp (prison h cred), [Event.VOP_GETATTR imgp.vp, Event.tpe_check]) := by
  unfold prison at htpe
  simp [secadm_vnode_check_exec, hga, htpe, prison]

/-- C9 exercised: the pre-check fails with 13 in a whitelist-mode prison
holding an active Integrity rule for the file. -/
theorem check_exec_tpe_denied_witness :
    secadm_vnode_check_exec sample_header
      (sample_host
        { sp_rules := .node .leaf
            (sample_rule sample_fp_integriforce .secadm_integriforce_rule 1 0 0) .leaf
          sp_num_integriforce_rules := 1
          sp_num_pax_rules := 0
          sp_integriforce_flags := 1 } 13 0 0)
      sample_cred sample_vp sample_imgp =
      (13, [Event.VOP_GETATTR sample_vp, Event.tpe_check]) :=
  check_exec_tpe_denied sample_header _ sample_cred sample_vp sample_imgp
    (by decide) (by decide)

/-- C10: when the attribute fetch fails, each of the three procedures
(write-open for a mode with `VWRITE` or `VAPPEND`) returns exactly the
error of the fetch, having performed the fetch and nothing else. -/
theorem getattr_error_propagates (c : Header) (h : Collaborators) (cred : ucred)
    (dvp vp : vnode) (imgp : image_params) (accmode : Nat)
    (hmode : accmode &&& (VWRITE ||| VAPPEND) ≠ 0)
    (hexec : (h.VOP_GETATTR imgp.vp cred).1 ≠ 0)
    (hfile : (h.VOP_GETATTR vp cred).1 ≠ 0) :
    secadm_vnode_check_exec c h cred vp imgp =
      ((h.VOP_GETATTR imgp.vp cred).1, [Event.VOP_GETATTR imgp.vp]) ∧
    secadm_vnode_check_open c h cred vp accmode =
      ((h.VOP_GETATTR vp cred).1, [Event.VOP_GETATTR vp]) ∧
    secadm_vnode_check_unlink c h cred dvp vp =
      ((h.VOP_GETATTR vp cred).1, [Event.VOP_GETATTR vp]) := by
  simp [secadm_vnode_check_exec, secadm_vnode_check_open, secadm_vnode_check_unlink,
    hmode, hexec, hfile]

/-- C10 exercised: the fetch fails with 5 in a whitelist-mode prison that
holds rules. -/
theorem getattr_error_propagates_witness :
    secadm_vnode_check_exec sample_header
        (sample_host
          { sp_rules := .node .leaf
              (sample_rule sample_fp_integriforce .secadm_integriforce_rule 1 0 0) .leaf
            sp_num_integriforce_rules := 1
            sp_num_pax_rules := 1
            sp_integriforce_flags := 1 } 13 1 1)
        sample_cred sample_bad_vp sample_bad_imgp =
      (5, [Event.VOP_GETATTR sample_bad_vp]) :=
  (getattr_error_propagates sample_header _ sample_cred sample_vp sample_bad_vp
    sample_bad_imgp VWRITE (by decide) (by decide) (by decide)).1

/-- C4: in a prison whose Integrity and PaX rule counters are both zero,
exec (attribute fetch and pre-check succeeding) returns 0 having called
neither the verifier nor the enforcement entry point, and write-open (for
every access mode) and unlink return 0. -/
theorem default_allow (c : Header) (h : Collaborators) (cred : ucred)
    (dvp vp : vnode) (imgp : image_params) (accmode : Nat)
    (hI : (prison h cred).sp_num_integriforce_rules = 0)
    (hP : (prison h cred).sp_num_pax_rules = 0)
    (hexec : (h.VOP_GETATTR imgp.vp cred).1 = 0)
    (hfile : (h.VOP_GETATTR vp cred).1 = 0)
    (htpe : h.tpe_check imgp (prison h cred) = 0) :
    secadm_vnode_check_exec c h cred vp imgp =
      (0, [Event.VOP_GETATTR imgp.vp, Event.tpe_check, Event.PE_RLOCK, Event.PE_RUNLOCK]) ∧
    (secadm_vnode_check_open c h cred vp accmode).1 = 0 ∧
    (secadm_vnode_check_unlink c h cred dvp vp).1 = 0 := by
  unfold prison at hI hP htpe
  refine ⟨?_, ?_, ?_⟩
  · simp [secadm_vnode_check_exec, exec_pax_rules, exec_rule_inactive, hI, hP, hexec, htpe]
  · unfold secadm_vnode_check_open
    split
    · rfl
    · simp [hI, hfile]
  · simp [secadm_vnode_check_unlink, unlink_pax_rules, hI, hP, hfile]

/-- C4 exercised: the empty prison, whitelist mode set, a write open. -/
theorem default_allow_witness :
    secadm_vnode_check_exec sample_header (sample_host (sample_empty_entry 1) 0 1 1)
        sample_cred sample_vp sample_imgp =
      (0, [Event.VOP_GETATTR sample_vp, Event.tpe_check, Event.PE_RLOCK, Event.PE_RUNLOCK]) ∧
    (secadm_vnode_check_open sample_header (sample_host (sample_empty_entry 1) 0 1 1)
        sample_cred sample_vp VWRITE).1 = 0 ∧
    (secadm_vnode_check_unlink sample_header (sample_host (sample_empty_entry 1) 0 1 1)
        sample_cred sample_vp sample_vp).1 = 0 :=
  default_allow sample_header (sample_host (sample_empty_entry 1) 0 1 1) sample_cred
    sample_vp sample_vp sample_imgp VWRITE rfl rfl (by decide) (by decide) rfl

/-- C5: when exec finds an active Integrity rule and the verifier returns
a non-zero value, exec returns that value at once: the steps performed are
the attribute fetch, the pre-check, the Integrity lookup and the verifier
call between the lock operations, and nothing else (no second lookup, no
enforcement call), whatever else the index holds. -/
theorem check_exec_integrity_failure (c : Header) (h : Collaborators) (cred : ucred)
    (vp : vnode) (imgp : image_params) (rule : secadm_rule_t)
    (hga : (h.VOP_GETATTR imgp.vp cred).1 = 0)
    (htpe : h.tpe_check imgp (prison h cred) = 0)
    (hnum : (prison h cred).sp_num_integriforce_rules ≠ 0)
    (hfind : file_rule c h cred imgp.vp .secadm_integriforce_rule = some rule)
    (hact : rule.sr_active ≠ 0)
    (hchk : h.do_integriforce_check rule (h.VOP_GETATTR imgp.vp cred).2 imgp.vp cred ≠ 0) :
    secadm_vnode_check_exec c h cred vp imgp =
      (h.do_integriforce_check rule (h.VOP_GETATTR imgp.vp cred).2 imgp.vp cred,
       [Event.VOP_GETATTR imgp.vp, Event.tpe_check, Event.PE_RLOCK,
        Event.RB_FIND (file_fp c h cred imgp.vp .secadm_integriforce_rule),
        Event.PE_RUNLOCK, Event.do_integriforce_check rule, Event.PE_RLOCK,
        Event.PE_RUNLOCK]) := by
  unfold file_rule file_fp prison at *
  simp [secadm_vnode_check_exec, hga, htpe, hnum, hfind, hact, hchk]

/-- C5 exercised: the verifier fails with 1 on a file that also has an
active PaX rule with every feature specified. -/
theorem check_exec_integrity_failure_witness :
    secadm_vnode_check_exec sample_header
        (sample_host
          { sp_rules := .node .leaf
              (sample_rule sample_fp_integriforce .secadm_integriforce_rule 1 0 0)
              (.node .leaf (sample_rule sample_fp_pax .secadm_pax_rule 1 63 7968) .leaf)
            sp_num_integriforce_rules := 1
            sp_num_pax_rules := 1
            sp_integriforce_flags := 0 } 0 1 0)
        sample_cred sample_vp sample_imgp =
      (1, [Event.VOP_GETATTR sample_vp, Event.tpe_check, Event.PE_RLOCK,
        Event.RB_FIND sample_fp_integriforce,
        Event.PE_RUNLOCK,
        Event.do_integriforce_check
          (sample_rule sample_fp_integriforce .secadm_integriforce_rule 1 0 0),
        Event.PE_RLOCK, Event.PE_RUNLOCK]) :=
  check_exec_integrity_failure sample_header _ sample_cred sample_vp sample_imgp
    (sample_rule sample_fp_integriforce .secadm_integriforce_rule 1 0 0)
    (by decide) (by decide) (by decide) (by decide) (by decide) (by decide)

/-- The return code of a write-open whose attribute fetch succeeds, as a
function of the Integrity counter, the Integrity lookup and the whitelist
flag. -/
theorem check_open_code (c : Header) (h : Collaborators) (cred : ucred)
    (vp : vnode) (accmode : Nat)
    (hmode : accmode &&& (VWRITE ||| VAPPEND) ≠ 0)
    (hga : (h.VOP_GETATTR vp cred).1 = 0) :
    (secadm_vnode_check_open c h cred vp accmode).1 =
      if (prison h cred).sp_num_integriforce_rules ≠ 0 then
        match file_rule c h cred vp .secadm_integriforce_rule with
        | some rule =>
          if rule.sr_active ≠ 0 ∨ whitelist_mode c (prison h cred) then EPERM else 0
        | none => 0
      else 0 := by
  unfold file_rule file_fp whitelist_mode prison
  by_cases hn : (h.get_prison_list_entry cred.pr_id).sp_num_integriforce_rules = 0
  · simp [secadm_vnode_check_open, hmode, hga, hn]
  · cases hf : RB_FIND (h.get_prison_list_entry cred.pr_id).sp_rules
        (fingerprint c (build_key c cred (h.VOP_GETATTR vp cred).2 vp
          .secadm_integriforce_rule)) with
    | none => simp [secadm_vnode_check_open, hmode, hga, hn, hf]
    | some rule =>
      by_cases hd : rule.sr_active ≠ 0 ∨
          (h.get_prison_list_entry cred.pr_id).sp_integriforce_flags &&&
            c.SECADM_INTEGRIFORCE_FLAGS_WHITELIST ≠ 0
      · simp only [secadm_vnode_check_open, hmode, hga, hn, hf, hd]
        simp [hn]
      · simp only [secadm_vnode_check_open, hmode, hga, hn, hf, hd]
        simp [hn]

/-- The return code of an unlink whose attribute fetch succeeds, as a
function of the counters, the two lookups and the whitelist flag. -/
theorem check_unlink_code (c : Header) (h : Collaborators) (cred : ucred)
    (dvp vp : vnode) (hga : (h.VOP_GETATTR vp cred).1 = 0) :
    (secadm_vnode_check_unlink c h cred dvp vp).1 =
      if (prison h cred).sp_num_integriforce_rules ≠ 0 ∧
          (∃ rule, file_rule c h cred vp .secadm_integriforce_rule = some rule ∧
            (rule.sr_active ≠ 0 ∨ whitelist_mode c (prison h cred))) then EPERM
      else if (prison h cred).sp_num_pax_rules ≠ 0 ∧
          (∃ rule, file_rule c h cred vp .secadm_pax_rule = some rule ∧
            rule.sr_active ≠ 0) then EPERM
      else 0 := by
  unfold file_rule file_fp whitelist_mode prison
  by_cases hn : (h.get_prison_list_entry cred.pr_id).sp_num_integriforce_rules = 0 <;>
  by_cases hp : (h.get_prison_list_entry cred.pr_id).sp_num_pax_rules = 0 <;>
  cases hf : RB_FIND (h.get_prison_list_entry cred.pr_id).sp_rules
        (fingerprint c (build_key c cred (h.VOP_GETATTR vp cred).2 vp
          .secadm_integriforce_rule)) <;>
  cases hg : RB_FIND (h.get_prison_list_entry cred.pr_id).sp_rules
        (fingerprint c (build_key c cred (h.VOP_GETATTR vp cred).2 vp
          .secadm_pax_rule)) <;>
  simp [secadm_vnode_check_unlink, unlink_pax_rules, hga, hn, hp, hf, hg] <;>
  split_ifs <;> simp_all

/-- C2 fails in the code: a PaX rule can decide a write-open.  The
Integrity key of the file with id 140382630843 and the PaX key of the file
with id 596910619598 (same jail, same mount) have the same fingerprint.
The index holds an Integrity rule for a third file and an active PaX rule
for the second file, and no Integrity rule for the first file.  A
write-open of the first file finds the PaX rule under the Integrity
fingerprint and returns `EPERM`; in the same prison without the PaX rule
it returns 0. -/
theorem open_denied_by_colliding_pax_rule :
    fingerprint sample_header
        (build_key sample_header sample_cred { va_fileid := 140382630843 } sample_vp
          .secadm_integriforce_rule) = 3322642962 ∧
    fingerprint sample_header
        (build_key sample_header sample_cred { va_fileid := 596910619598 } sample_vp
          .secadm_pax_rule) = 3322642962 ∧
    sample_fp_integriforce ≠ 3322642962 ∧
    secadm_vnode_check_open sample_header
        (sample_host
          { sp_rules := .node .leaf
              (sample_rule sample_fp_integriforce .secadm_integriforce_rule 1 0 0)
              (.node .leaf
                { sr_active := 1
                  sr_key := 3322642962
                  sr_type := .secadm_pax_rule
                  sr_integriforce_data := { si_path := "" }
                  sr_pax_data := { sp_path := "/second", sp_pax := 0, sp_pax_set := 0 } }
                .leaf)
            sp_num_integriforce_rules := 1
            sp_num_pax_rules := 1
            sp_integriforce_flags := 0 } 0 0 0)
        sample_cred { v_handle := 140382630843, f_mntonname := [47] } VWRITE =
      (EPERM, [Event.VOP_GETATTR { v_handle := 140382630843, f_mntonname := [47] },
        Event.PE_RLOCK, Event.RB_FIND 3322642962, Event.printf_modification "",
        Event.PE_RUNLOCK]) ∧
    secadm_vnode_check_open sample_header
        (sample_host
          { sp_rules := .node .leaf
              (sample_rule sample_fp_integriforce .secadm_integriforce_rule 1 0 0) .leaf
            sp_num_integriforce_rules := 1
            sp_num_pax_rules := 0
            sp_integriforce_flags := 0 } 0 0 0)
        sample_cred { v_handle := 140382630843, f_mntonname := [47] } VWRITE =
      (0, [Event.VOP_GETATTR { v_handle := 140382630843, f_mntonname := [47] },
        Event.PE_RLOCK, Event.RB_FIND 3322642962, Event.PE_RUNLOCK]) := by
  refine ⟨by decide, by decide, by decide, by decide, by decide⟩

/-- C3 fails in the code: an unlink can be denied without an Integrity
rule for the file and without an active PaX rule for it, and the whitelist
flag decides it.  The Integrity key of the file with id 13032816930 and
the PaX key of the file with id 723458405717 (same jail, same mount) have
the same fingerprint.  The index holds an Integrity rule for a third file
and an inactive PaX rule for the second file; nothing is stored under the
PaX fingerprint of the first file.  Unlink of the first file finds the
inactive PaX rule under the Integrity fingerprint: with the whitelist flag
set it returns `EPERM`, with the flag clear it returns 0. -/
theorem unlink_denied_by_colliding_pax_rule :
    fingerprint sample_header
        (build_key sample_header sample_cred { va_fileid := 13032816930 } sample_vp
          .secadm_integriforce_rule) = 2431992250 ∧
    fingerprint sample_header
        (build_key sample_header sample_cred { va_fileid := 723458405717 } sample_vp
          .secadm_pax_rule) = 2431992250 ∧
    fingerprint sample_header
        (build_key sample_header sample_cred { va_fileid := 13032816930 } sample_vp
          .secadm_pax_rule) = 3101745553 ∧
    sample_fp_integriforce ≠ 2431992250 ∧
    secadm_vnode_check_unlink sample_header
        (sample_host
          { sp_rules := .node .leaf
              (sample_rule sample_fp_integriforce .secadm_integriforce_rule 1 0 0)
              (.node .leaf
                { sr_active := 0
                  sr_key := 2431992250
                  sr_type := .secadm_pax_rule
                  sr_integriforce_data := { si_path := "" }
                  sr_pax_data := { sp_path := "/second", sp_pax := 0, sp_pax_set := 0 } }
                .leaf)
            sp_num_integriforce_rules := 1
            sp_num_pax_rules := 1
            sp_integriforce_flags := 1 } 0 0 0)
        sample_cred sample_vp { v_handle := 13032816930, f_mntonname := [47] } =
      (EPERM, [Event.VOP_GETATTR { v_handle := 13032816930, f_mntonname := [47] },
        Event.PE_RLOCK, Event.RB_FIND 2431992250, Event.printf_unlink "",
        Event.PE_RUNLOCK]) ∧
    secadm_vnode_check_unlink sample_header
        (sample_host
          { sp_rules := .node .leaf
              (sample_rule sample_fp_integriforce .secadm_integriforce_rule 1 0 0)
              (.node .leaf
                { sr_active := 0
                  sr_key := 2431992250
                  sr_type := .secadm_pax_rule
                  sr_integriforce_data := { si_path := "" }
                  sr_pax_data := { sp_path := "/second", sp_pax := 0, sp_pax_set := 0 } }
                .leaf)
            sp_num_integriforce_rules := 1
            sp_num_pax_rules := 1
            sp_integriforce_flags := 0 } 0 0 0)
        sample_cred sample_vp { v_handle := 13032816930, f_mntonname := [47] } =
      (0, [Event.VOP_GETATTR { v_handle := 13032816930, f_mntonname := [47] },
        Event.PE_RLOCK, Event.RB_FIND 2431992250, Event.RB_FIND 3101745553,
        Event.PE_RUNLOCK]) := by
  refine ⟨by decide, by decide, by decide, by decide, by decide, by decide⟩

/-- One feature block of the translation adds its contribution to the
flags accumulated so far. -/
theorem ite_or_block (P Q : Prop) [Decidable P] [Decidable Q] (F a b : Nat) :
    (if P then (if Q then F ||| a else F ||| b) else F) =
      F ||| (if P then (if Q then a else b) else 0) := by
  split_ifs <;> simp

/-- Clearing or setting a flag leaves every flag disjoint from it as it
was. -/
theorem acl_block_and (P Q : Prop) [Decidable P] [Decidable Q] (F acl N : Nat)
    (h : acl &&& N = 0) :
    (if P then (if Q then F ||| acl else F ^^^ (F &&& acl)) else F) &&& N = F &&& N := by
  split_ifs
  · rw [Nat.and_distrib_right, h, Nat.or_zero]
  · rw [Nat.and_xor_distrib_right, Nat.and_assoc, h]
    simp
  · rfl

/-- The part of the accumulated flags inside a note flag `N` that shares no
bit with the ACL-preference flag: the union of the six feature
contributions, each cut down to `N`. -/
theorem pax_flags_and (c : Header) (d : secadm_pax_data_t) (N : Nat)
    (hacl : ∀ acl, c.PAX_NOTE_PREFER_ACL = some acl → acl &&& N = 0) :
    pax_flags c d 0 &&& N =
      ((if d.sp_pax_set &&& c.SECADM_PAX_PAGEEXEC_SET ≠ 0 then
          (if d.sp_pax &&& c.SECADM_PAX_PAGEEXEC ≠ 0 then c.PAX_NOTE_PAGEEXEC
            else c.PAX_NOTE_NOPAGEEXEC) else 0) &&& N) |||
      ((if d.sp_pax_set &&& c.SECADM_PAX_MPROTECT_SET ≠ 0 then
          (if d.sp_pax &&& c.SECADM_PAX_MPROTECT ≠ 0 then c.PAX_NOTE_MPROTECT
            else c.PAX_NOTE_NOMPROTECT) else 0) &&& N) |||
      ((if d.sp_pax_set &&& c.SECADM_PAX_ASLR_SET ≠ 0 then
          (if d.sp_pax &&& c.SECADM_PAX_ASLR ≠ 0 then c.PAX_NOTE_ASLR
            else c.PAX_NOTE_NOASLR) else 0) &&& N) |||
      ((if d.sp_pax_set &&& c.SECADM_PAX_SEGVGUARD_SET ≠ 0 then
          (if d.sp_pax &&& c.SECADM_PAX_SEGVGUARD ≠ 0 then c.PAX_NOTE_SEGVGUARD
            else c.PAX_NOTE_NOSEGVGUARD) else 0) &&& N) |||
      ((if d.sp_pax_set &&& c.SECADM_PAX_SHLIBRANDOM_SET ≠ 0 then
          (if d.sp_pax &&& c.SECADM_PAX_SHLIBRANDOM ≠ 0 then c.PAX_NOTE_SHLIBRANDOM
            else c.PAX_NOTE_NOSHLIBRANDOM) else 0) &&& N) |||
      ((if d.sp_pax_set &&& c.SECADM_PAX_MAP32 ≠ 0 then
          (if d.sp_pax &&& c.SECADM_PAX_MAP32 ≠ 0 then c.PAX_NOTE_DISALLOWMAP32BIT
            else c.PAX_NOTE_NODISALLOWMAP32BIT) else 0) &&& N) := by
  unfold pax_flags
  simp only [ite_or_block, Nat.zero_or]
  cases hc : c.PAX_NOTE_PREFER_ACL with
  | none => simp only [Nat.and_distrib_right]
  | some acl =>
    simp only []
    rw [acl_block_and _ _ _ _ _ (hacl acl hc)]
    simp only [Nat.and_distrib_right]

/-- One feature contribution cut down to a flag `N`. -/
theorem block_and (P Q : Prop) [Decidable P] [Decidable Q] (a b N : Nat) :
    (if P then (if Q then a else b) else 0) &&& N =
      if P then (if Q then a &&& N else b &&& N) else 0 := by
  split_ifs <;> simp

/-- The note flags of `sample_header` are non-zero and pairwise disjoint. -/
theorem sample_header_notes_distinct : pax_notes_distinct sample_header := by
  refine ⟨by decide, by decide, ?_⟩
  intro acl hacl
  have h4 : acl = 4096 := by
    simp only [sample_header, Option.some.injEq] at hacl
    exact hacl.symm
  subst h4
  decide

/-- The PaX stage of exec is the flag accumulation followed by the code at
the label `rule_inactive`. -/
theorem exec_pax_rules_eq (c : Header) (h : Collaborators) (entry : secadm_prison_entry_t)
    (key : secadm_rule_type_t → secadm_key_t) (imgp : image_params)
    (tr : List Event) (err : Int) :
    exec_pax_rules c h entry key imgp tr err =
      exec_rule_inactive h imgp (exec_pax_flags c entry key tr).1 err
        (exec_pax_flags c entry key tr).2 := by
  unfold exec_pax_rules exec_pax_flags
  split_ifs
  · simp only []
    split
    · split_ifs <;> rfl
    · rfl
  · rfl

/-- The procedure `secadm_vnode_check_exec` either returns before the
label `rule_inactive` or runs the code at the label with `err` equal to 0,
as `exec_rules` says. -/
theorem check_exec_eq (c : Header) (h : Collaborators) (cred : ucred)
    (vp : vnode) (imgp : image_params) :
    secadm_vnode_check_exec c h cred vp imgp =
      match exec_rules c h cred imgp with
      | .inl r => r
      | .inr p => exec_rule_inactive h imgp p.1 0 p.2 := by
  by_cases h1 : (h.VOP_GETATTR imgp.vp cred).1 = 0
  swap
  · simp [secadm_vnode_check_exec, exec_rules, h1]
  by_cases h2 : h.tpe_check imgp (h.get_prison_list_entry cred.pr_id) = 0
  swap
  · simp [secadm_vnode_check_exec, exec_rules, h1, h2]
  by_cases h3 : (h.get_prison_list_entry cred.pr_id).sp_num_integriforce_rules = 0
  · simp [secadm_vnode_check_exec, exec_rules, h1, h2, h3, exec_pax_rules_eq]
  cases hf : RB_FIND (h.get_prison_list_entry cred.pr_id).sp_rules
      (fingerprint c (build_key c cred (h.VOP_GETATTR imgp.vp cred).2 imgp.vp
        .secadm_integriforce_rule)) with
  | none =>
    by_cases h4 : (h.get_prison_list_entry cred.pr_id).sp_integriforce_flags &&&
        c.SECADM_INTEGRIFORCE_FLAGS_WHITELIST = c.SECADM_INTEGRIFORCE_FLAGS_WHITELIST
    · simp [secadm_vnode_check_exec, exec_rules, h1, h2, h3, hf, h4]
    · simp [secadm_vnode_check_exec, exec_rules, h1, h2, h3, hf, h4, exec_pax_rules_eq]
  | some rule =>
    by_cases h5 : rule.sr_active = 0
    · simp [secadm_vnode_check_exec, exec_rules, h1, h2, h3, hf, h5]
    · by_cases h6 : h.do_integriforce_check rule (h.VOP_GETATTR imgp.vp cred).2 imgp.vp cred = 0
      · simp [secadm_vnode_check_exec, exec_rules, h1, h2, h3, hf, h5, h6, exec_pax_rules_eq]
      · simp [secadm_vnode_check_exec, exec_rules, h1, h2, h3, hf, h5, h6]

/-- The PaX stage performs no enforcement call before the label, and the
flags it accumulates are 0 or the translation of the active rule found
under the PaX fingerprint. -/
theorem exec_pax_flags_spec (c : Header) (entry : secadm_prison_entry_t)
    (key : secadm_rule_type_t → secadm_key_t) (tr : List Event) :
    (exec_pax_flags c entry key tr).1.filter is_enforcement = tr.filter is_enforcement ∧
    ((exec_pax_flags c entry key tr).2 = 0 ∨
      ∃ rule, entry.sp_num_pax_rules ≠ 0 ∧
        RB_FIND entry.sp_rules (fingerprint c (key .secadm_pax_rule)) = some rule ∧
        rule.sr_active ≠ 0 ∧
        (exec_pax_flags c entry key tr).2 = pax_flags c rule.sr_pax_data 0) := by
  by_cases hn : entry.sp_num_pax_rules = 0
  · simp [exec_pax_flags, hn]
  · cases hf : RB_FIND entry.sp_rules (fingerprint c (key .secadm_pax_rule)) with
    | none => simp [exec_pax_flags, hn, hf, is_enforcement]
    | some rule =>
      by_cases ha : rule.sr_active = 0
      · simp [exec_pax_flags, hn, hf, ha, is_enforcement]
      · simp [exec_pax_flags, hn, hf, ha, is_enforcement]

/-- Before the label `rule_inactive` exec performs no enforcement call, and
the flags with which it reaches the label are 0 or the translation of the
active rule found under the PaX fingerprint of the file. -/
theorem exec_rules_spec (c : Header) (h : Collaborators) (cred : ucred)
    (imgp : image_params) :
    match exec_rules c h cred imgp with
    | .inl r => r.2.filter is_enforcement = []
    | .inr p => p.1.filter is_enforcement = [] ∧
      (p.2 = 0 ∨
        ∃ rule, (prison h cred).sp_num_pax_rules ≠ 0 ∧
          file_rule c h cred imgp.vp .secadm_pax_rule = some rule ∧
          rule.sr_active ≠ 0 ∧ p.2 = pax_flags c rule.sr_pax_data 0) := by
  unfold file_rule file_fp prison
  have hp := exec_pax_flags_spec c (h.get_prison_list_entry cred.pr_id)
    (build_key c cred (h.VOP_GETATTR imgp.vp cred).2 imgp.vp)
  by_cases h1 : (h.VOP_GETATTR imgp.vp cred).1 = 0
  swap
  · simp [exec_rules, h1, is_enforcement]
  by_cases h2 : h.tpe_check imgp (h.get_prison_list_entry cred.pr_id) = 0
  swap
  · simp [exec_rules, h1, h2, is_enforcement]
  by_cases h3 : (h.get_prison_list_entry cred.pr_id).sp_num_integriforce_rules = 0
  · simp only [exec_rules, h1, h2, h3, ne_eq, not_true_eq_false, not_false_eq_true,
        if_false, if_true]
    refine ⟨?_, (hp _).2⟩
    rw [(hp _).1]
    simp [is_enforcement]
  cases hf : RB_FIND (h.get_prison_list_entry cred.pr_id).sp_rules
      (fingerprint c (build_key c cred (h.VOP_GETATTR imgp.vp cred).2 imgp.vp
        .secadm_integriforce_rule)) with
  | none =>
    by_cases h4 : (h.get_prison_list_entry cred.pr_id).sp_integriforce_flags &&&
        c.SECADM_INTEGRIFORCE_FLAGS_WHITELIST = c.SECADM_INTEGRIFORCE_FLAGS_WHITELIST
    · simp [exec_rules, h1, h2, h3, hf, h4, is_enforcement]
    · simp only [exec_rules, h1, h2, h3, hf, h4, ne_eq, not_true_eq_false, not_false_eq_true,
        if_false, if_true]
      refine ⟨?_, (hp _).2⟩
      rw [(hp _).1]
      simp [is_enforcement]
  | some rule =>
    by_cases h5 : rule.sr_active = 0
    · simp [exec_rules, h1, h2, h3, hf, h5, is_enforcement]
    · by_cases h6 : h.do_integriforce_check rule (h.VOP_GETATTR imgp.vp cred).2 imgp.vp cred = 0
      · simp only [exec_rules, h1, h2, h3, hf, h5, h6, ne_eq, not_true_eq_false, not_false_eq_true,
        if_false, if_true]
        refine ⟨?_, (hp _).2⟩
        rw [(hp _).1]
        simp [is_enforcement]
      · simp [exec_rules, h1, h2, h3, hf, h5, h6, is_enforcement]

/-- The masks `sample_header` tests against `sp_pax_set` are non-zero and
pairwise disjoint. -/
theorem sample_header_set_masks_distinct : pax_set_masks_distinct sample_header :=
  ⟨by decide, by decide⟩

/-- C7: for an active PaX rule whose `sp_pax_set` is exactly
`SECADM_PAX_ASLR_SET` and whose `sp_pax` has `SECADM_PAX_ASLR` clear (the
masks tested against `sp_pax_set` being non-zero and pairwise disjoint),
the translated flag value is exactly `PAX_NOTE_NOASLR`; no other value is
ever passed to the enforcement entry point by exec of the file; and when
the attribute fetch and the pre-check succeed and the prison has no
Integrity rules, exec looks the rule up, passes `PAX_NOTE_NOASLR` and
returns the result of the enforcement call. -/
theorem check_exec_noaslr (c : Header) (h : Collaborators) (cred : ucred)
    (vp : vnode) (imgp : image_params) (rule : secadm_rule_t)
    (hm : pax_set_masks_distinct c)
    (hnote : c.PAX_NOTE_NOASLR ≠ 0)
    (hnum : (prison h cred).sp_num_pax_rules ≠ 0)
    (hfind : file_rule c h cred imgp.vp .secadm_pax_rule = some rule)
    (hact : rule.sr_active ≠ 0)
    (hset : rule.sr_pax_data.sp_pax_set = c.SECADM_PAX_ASLR_SET)
    (hen : rule.sr_pax_data.sp_pax &&& c.SECADM_PAX_ASLR = 0) :
    pax_flags c rule.sr_pax_data 0 = c.PAX_NOTE_NOASLR ∧
    (∀ flags, Event.secadm_pax_elf flags ∈ (secadm_vnode_check_exec c h cred vp imgp).2 →
      flags = c.PAX_NOTE_NOASLR) ∧
    ((h.VOP_GETATTR imgp.vp cred).1 = 0 → h.tpe_check imgp (prison h cred) = 0 →
      (prison h cred).sp_num_integriforce_rules = 0 →
      secadm_vnode_check_exec c h cred vp imgp =
        (secadm_pax_elf h imgp c.PAX_NOTE_NOASLR,
         [Event.VOP_GETATTR imgp.vp, Event.tpe_check, Event.PE_RLOCK,
          Event.RB_FIND (file_fp c h cred imgp.vp .secadm_pax_rule),
          Event.PE_RUNLOCK, Event.secadm_pax_elf c.PAX_NOTE_NOASLR])) := by
  have hflags : pax_flags c rule.sr_pax_data 0 = c.PAX_NOTE_NOASLR := by
    obtain ⟨hnz, hpw⟩ := hm
    have hpw' : List.Pairwise (fun a b => b &&& a = 0) (pax_set_masks c) :=
      hpw.imp (fun hab => by rw [Nat.and_comm]; exact hab)
    simp only [pax_set_masks, List.mem_cons, List.mem_singleton, forall_eq_or_imp, forall_eq,
      List.pairwise_cons, List.not_mem_nil, false_imp_iff, implies_true, and_true,
      List.Pairwise.nil] at hnz hpw hpw'
    unfold pax_flags
    cases hc : c.PAX_NOTE_PREFER_ACL <;> simp [hset, hen, hnz, hpw, hpw']
  refine ⟨hflags, ?_, ?_⟩
  · intro flags hmem
    have hspec := exec_rules_spec c h cred imgp
    rw [check_exec_eq] at hmem
    cases hr : exec_rules c h cred imgp with
    | inl r =>
      rw [hr] at hspec hmem
      have : Event.secadm_pax_elf flags ∈ r.2.filter is_enforcement :=
        List.mem_filter.mpr ⟨hmem, rfl⟩
      rw [hspec] at this
      exact absurd this (List.not_mem_nil _)
    | inr p =>
      rw [hr] at hspec hmem
      simp only [] at hspec hmem
      obtain ⟨hnone, hfl⟩ := hspec
      have hp2 : p.2 = 0 ∨ p.2 = c.PAX_NOTE_NOASLR := by
        rcases hfl with h0 | ⟨r, _, hr2, _, hr4⟩
        · exact Or.inl h0
        · rw [hfind] at hr2
          cases hr2
          exact Or.inr (hr4.trans hflags)
      have hnot : Event.secadm_pax_elf flags ∉ p.1 := by
        intro hin
        have : Event.secadm_pax_elf flags ∈ p.1.filter is_enforcement :=
          List.mem_filter.mpr ⟨hin, rfl⟩
        rw [hnone] at this
        exact absurd this (List.not_mem_nil _)
      unfold exec_rule_inactive at hmem
      rcases hp2 with h0 | h0
      · simp [h0, hnot] at hmem
      · by_cases hz : p.2 = 0
        · simp [hz, hnot] at hmem
        · simp [hz, hnot] at hmem
          rw [hmem, h0]
  · intro hga htpe hI
    unfold file_rule file_fp prison at *
    simp [secadm_vnode_check_exec, exec_pax_rules, exec_rule_inactive, hga, htpe, hI, hnum,
      hfind, hact, hflags, hnote]

/-- C7 exercised: a rule with `sp_pax_set = SECADM_PAX_ASLR_SET` and
`sp_pax = 0`. -/
theorem check_exec_noaslr_witness :
    pax_flags sample_header
      (sample_rule sample_fp_pax .secadm_pax_rule 1 0 1024).sr_pax_data 0 = 128 :=
  (check_exec_noaslr sample_header
    (sample_host
      { sp_rules := .node .leaf (sample_rule sample_fp_pax .secadm_pax_rule 1 0 1024) .leaf
        sp_num_integriforce_rules := 0
        sp_num_pax_rules := 1
        sp_integriforce_flags := 0 } 0 0 0)
    sample_cred sample_vp sample_imgp (sample_rule sample_fp_pax .secadm_pax_rule 1 0 1024)
    sample_header_set_masks_distinct (by decide) (by decide) (by decide) (by decide)
    rfl (by decide)).1

/-- C11: when exec reaches the label `rule_inactive` (rule evaluation has
finished without an early return, so `err` is 0) with accumulated flags
`flags` after the steps `tr`: if `flags` is non-zero, `secadm_pax_elf` is
called exactly once, with `flags`, after the lock is released, and exec
returns its result; if `flags` is zero, `secadm_pax_elf` is not called and
exec returns 0. -/
theorem check_exec_enforcement (c : Header) (h : Collaborators) (cred : ucred)
    (vp : vnode) (imgp : image_params) (tr : List Event) (flags : Nat)
    (hreach : exec_rules c h cred imgp = .inr (tr, flags)) :
    (flags ≠ 0 →
      secadm_vnode_check_exec c h cred vp imgp =
        (secadm_pax_elf h imgp flags, tr ++ [Event.PE_RUNLOCK, Event.secadm_pax_elf flags]) ∧
      (secadm_vnode_check_exec c h cred vp imgp).2.filter is_enforcement =
        [Event.secadm_pax_elf flags]) ∧
    (flags = 0 →
      secadm_vnode_check_exec c h cred vp imgp = (0, tr ++ [Event.PE_RUNLOCK]) ∧
      (secadm_vnode_check_exec c h cred vp imgp).2.filter is_enforcement = []) := by
  have hspec := exec_rules_spec c h cred imgp
  rw [hreach] at hspec
  have hnone : tr.filter is_enforcement = [] := hspec.1
  rw [check_exec_eq, hreach]
  constructor
  · intro hf
    simp [exec_rule_inactive, hf, hnone, is_enforcement]
  · intro hf
    simp [exec_rule_inactive, hf, hnone, is_enforcement]

/-- C11 exercised: an active Integrity rule that verifies and an active PaX
rule with six features specified; the enforcement call returns 7. -/
theorem check_exec_enforcement_witness :
    secadm_vnode_check_exec sample_header
        (sample_host
          { sp_rules := .node .leaf
              (sample_rule sample_fp_integriforce .secadm_integriforce_rule 1 0 0)
              (.node .leaf (sample_rule sample_fp_pax .secadm_pax_rule 1 63 7968) .leaf)
            sp_num_integriforce_rules := 1
            sp_num_pax_rules := 1
            sp_integriforce_flags := 1 } 0 0 7)
        sample_cred sample_vp sample_imgp =
      (7, [Event.VOP_GETATTR sample_vp, Event.tpe_check, Event.PE_RLOCK,
        Event.RB_FIND sample_fp_integriforce, Event.PE_RUNLOCK,
        Event.do_integriforce_check
          (sample_rule sample_fp_integriforce .secadm_integriforce_rule 1 0 0),
        Event.PE_RLOCK, Event.RB_FIND sample_fp_pax,
        Event.PE_RUNLOCK, Event.secadm_pax_elf 1365]) :=
  ((check_exec_enforcement sample_header
    (sample_host
      { sp_rules := .node .leaf
          (sample_rule sample_fp_integriforce .secadm_integriforce_rule 1 0 0)
          (.node .leaf (sample_rule sample_fp_pax .secadm_pax_rule 1 63 7968) .leaf)
        sp_num_integriforce_rules := 1
        sp_num_pax_rules := 1
        sp_integriforce_flags := 1 } 0 0 7)
    sample_cred sample_vp sample_imgp
    [Event.VOP_GETATTR sample_vp, Event.tpe_check, Event.PE_RLOCK,
      Event.RB_FIND sample_fp_integriforce, Event.PE_RUNLOCK,
      Event.do_integriforce_check
        (sample_rule sample_fp_integriforce .secadm_integriforce_rule 1 0 0),
      Event.PE_RLOCK, Event.RB_FIND sample_fp_pax]
    1365 (by decide)).1 (by decide)).1

/-- C13: when the Integrity lookup of exec finds an inactive rule, exec
returns 0 having performed the attribute fetch, the pre-check, that one
lookup and the lock operations around it, and nothing else: the verifier is
not called, no second lookup is made, whatever the whitelist flag and
whatever else the index holds. -/
theorem check_exec_inactive_integrity (c : Header) (h : Collaborators) (cred : ucred)
    (vp : vnode) (imgp : image_params) (rule : secadm_rule_t)
    (hga : (h.VOP_GETATTR imgp.vp cred).1 = 0)
    (htpe : h.tpe_check imgp (prison h cred) = 0)
    (hnum : (prison h cred).sp_num_integriforce_rules ≠ 0)
    (hfind : file_rule c h cred imgp.vp .secadm_integriforce_rule = some rule)
    (hact : rule.sr_active = 0) :
    secadm_vnode_check_exec c h cred vp imgp =
      (0, [Event.VOP_GETATTR imgp.vp, Event.tpe_check, Event.PE_RLOCK,
        Event.RB_FIND (file_fp c h cred imgp.vp .secadm_integriforce_rule),
        Event.PE_RUNLOCK]) ∧
    (secadm_vnode_check_exec c h cred vp imgp).2.filter is_verifier = [] := by
  unfold file_rule file_fp prison at *
  simp [secadm_vnode_check_exec, exec_rule_inactive, hga, htpe, hnum, hfind, hact, is_verifier]

/-- C13 exercised: whitelist mode set, an inactive Integrity rule and an
active PaX rule with six features specified for the file. -/
theorem check_exec_inactive_integrity_witness :
    secadm_vnode_check_exec sample_header
        (sample_host
          { sp_rules := .node .leaf
              (sample_rule sample_fp_integriforce .secadm_integriforce_rule 0 0 0)
              (.node .leaf (sample_rule sample_fp_pax .secadm_pax_rule 1 63 7968) .leaf)
            sp_num_integriforce_rules := 1
            sp_num_pax_rules := 1
            sp_integriforce_flags := 1 } 0 1 7)
        sample_cred sample_vp sample_imgp =
      (0, [Event.VOP_GETATTR sample_vp, Event.tpe_check, Event.PE_RLOCK,
        Event.RB_FIND sample_fp_integriforce, Event.PE_RUNLOCK]) :=
  (check_exec_inactive_integrity sample_header _ sample_cred sample_vp sample_imgp
    (sample_rule sample_fp_integriforce .secadm_integriforce_rule 0 0 0)
    (by decide) (by decide) (by decide) (by decide) (by decide)).1

/-- C17, as stated, fails: with an inactive Integrity rule and an active
PaX rule with six features specified for the file, exec returns 0 without
looking the PaX rule up and without calling the enforcement entry point,
although the flags of the PaX rule are non-zero. -/
theorem check_exec_inactive_no_hardening :
    file_rule sample_header
      (sample_host
        { sp_rules := .node .leaf
            (sample_rule sample_fp_integriforce .secadm_integriforce_rule 0 0 0)
            (.node .leaf (sample_rule sample_fp_pax .secadm_pax_rule 1 63 7968) .leaf)
          sp_num_integriforce_rules := 1
          sp_num_pax_rules := 1
          sp_integriforce_flags := 0 } 0 0 7)
      sample_cred sample_vp .secadm_pax_rule =
      some (sample_rule sample_fp_pax .secadm_pax_rule 1 63 7968) ∧
    pax_flags sample_header (sample_rule sample_fp_pax .secadm_pax_rule 1 63 7968).sr_pax_data 0
      = 1365 ∧
    secadm_vnode_check_exec sample_header
      (sample_host
        { sp_rules := .node .leaf
            (sample_rule sample_fp_integriforce .secadm_integriforce_rule 0 0 0)
            (.node .leaf (sample_rule sample_fp_pax .secadm_pax_rule 1 63 7968) .leaf)
          sp_num_integriforce_rules := 1
          sp_num_pax_rules := 1
          sp_integriforce_flags := 0 } 0 0 7)
      sample_cred sample_vp sample_imgp =
      (0, [Event.VOP_GETATTR sample_vp, Event.tpe_check, Event.PE_RLOCK,
        Event.RB_FIND sample_fp_integriforce, Event.PE_RUNLOCK]) := by
  refine ⟨by decide, by decide, by decide⟩

/-- C17, amended: when the Integrity lookup of exec finds an inactive rule,
exec applies no integrity verdict and does not go on to the PaX rules:
control reaches the label `rule_inactive` with flags 0 after one lookup
only, and the enforcement entry point is not called, whatever PaX rule the
index holds for the file. -/
theorem check_exec_inactive_skips_hardening (c : Header) (h : Collaborators) (cred : ucred)
    (vp : vnode) (imgp : image_params) (rule : secadm_rule_t)
    (hga : (h.VOP_GETATTR imgp.vp cred).1 = 0)
    (htpe : h.tpe_check imgp (prison h cred) = 0)
    (hnum : (prison h cred).sp_num_integriforce_rules ≠ 0)
    (hfind : file_rule c h cred imgp.vp .secadm_integriforce_rule = some rule)
    (hact : rule.sr_active = 0) :
    exec_rules c h cred imgp =
      .inr ([Event.VOP_GETATTR imgp.vp, Event.tpe_check, Event.PE_RLOCK,
        Event.RB_FIND (file_fp c h cred imgp.vp .secadm_integriforce_rule)], 0) ∧
    (secadm_vnode_check_exec c h cred vp imgp).2.filter is_lookup =
      [Event.RB_FIND (file_fp c h cred imgp.vp .secadm_integriforce_rule)] ∧
    (secadm_vnode_check_exec c h cred vp imgp).2.filter is_enforcement = [] := by
  unfold file_rule file_fp prison at *
  simp [secadm_vnode_check_exec, exec_rules, exec_rule_inactive, hga, htpe, hnum, hfind, hact,
    is_lookup, is_enforcement]

/-- C17 amended, exercised: an inactive Integrity rule and an active PaX
rule with six features specified. -/
theorem check_exec_inactive_skips_hardening_witness :
    (secadm_vnode_check_exec sample_header
      (sample_host
        { sp_rules := .node .leaf
            (sample_rule sample_fp_integriforce .secadm_integriforce_rule 0 0 0)
            (.node .leaf (sample_rule sample_fp_pax .secadm_pax_rule 1 63 7968) .leaf)
          sp_num_integriforce_rules := 1
          sp_num_pax_rules := 1
          sp_integriforce_flags := 0 } 0 0 7)
      sample_cred sample_vp sample_imgp).2.filter is_enforcement = [] :=
  (check_exec_inactive_skips_hardening sample_header _ sample_cred sample_vp sample_imgp
    (sample_rule sample_fp_integriforce .secadm_integriforce_rule 0 0 0)
    (by decide) (by decide) (by decide) (by decide) (by decide)).2.2

/-- C14 fails in the code: two files of one jail and one mount, with
different file ids, whose Integrity keys have the same fingerprint.  The
index holds one rule, registered for the first file; a write-open of the
second file finds that rule and is denied with the first file's path. -/
theorem fingerprint_collision_cross_match :
    build_key sample_header sample_cred { va_fileid := 738927630439 } sample_vp
        .secadm_integriforce_rule ≠
      build_key sample_header sample_cred { va_fileid := 948280518588 } sample_vp
        .secadm_integriforce_rule ∧
    fingerprint sample_header
        (build_key sample_header sample_cred { va_fileid := 738927630439 } sample_vp
          .secadm_integriforce_rule) = 1252034129 ∧
    fingerprint sample_header
        (build_key sample_header sample_cred { va_fileid := 948280518588 } sample_vp
          .secadm_integriforce_rule) = 1252034129 ∧
    secadm_vnode_check_open sample_header
        (sample_host
          { sp_rules := .node .leaf
              { sr_active := 1
                sr_key := 1252034129
                sr_type := .secadm_integriforce_rule
                sr_integriforce_data := { si_path := "/first" }
                sr_pax_data := { sp_path := "", sp_pax := 0, sp_pax_set := 0 } } .leaf
            sp_num_integriforce_rules := 1
            sp_num_pax_rules := 0
            sp_integriforce_flags := 0 } 0 0 0)
        sample_cred { v_handle := 948280518588, f_mntonname := [47] } VWRITE =
      (EPERM, [Event.VOP_GETATTR { v_handle := 948280518588, f_mntonname := [47] },
        Event.PE_RLOCK, Event.RB_FIND 1252034129, Event.printf_modification "/first",
        Event.PE_RUNLOCK]) := by
  refine ⟨by decide, by decide, by decide, by decide⟩

/-- The steps of a write-open whose attribute fetch succeeds. -/
theorem check_open_trace (c : Header) (h : Collaborators) (cred : ucred)
    (vp : vnode) (accmode : Nat)
    (hmode : accmode &&& (VWRITE ||| VAPPEND) ≠ 0)
    (hga : (h.VOP_GETATTR vp cred).1 = 0) :
    (∃ rule, (prison h cred).sp_num_integriforce_rules ≠ 0 ∧
      file_rule c h cred vp .secadm_integriforce_rule = some rule ∧
      (rule.sr_active ≠ 0 ∨ whitelist_mode c (prison h cred)) ∧
      secadm_vnode_check_open c h cred vp accmode =
        (EPERM, [Event.VOP_GETATTR vp, Event.PE_RLOCK,
          Event.RB_FIND (file_fp c h cred vp .secadm_integriforce_rule),
          Event.printf_modification rule.sr_integriforce_data.si_path, Event.PE_RUNLOCK])) ∨
    secadm_vnode_check_open c h cred vp accmode =
      (0, [Event.VOP_GETATTR vp, Event.PE_RLOCK,
        Event.RB_FIND (file_fp c h cred vp .secadm_integriforce_rule), Event.PE_RUNLOCK]) ∨
    secadm_vnode_check_open c h cred vp accmode =
      (0, [Event.VOP_GETATTR vp, Event.PE_RLOCK, Event.PE_RUNLOCK]) := by
  unfold file_rule file_fp whitelist_mode prison
  by_cases hn : (h.get_prison_list_entry cred.pr_id).sp_num_integriforce_rules = 0
  · simp [secadm_vnode_check_open, hmode, hga, hn]
  · cases hf : RB_FIND (h.get_prison_list_entry cred.pr_id).sp_rules
        (fingerprint c (build_key c cred (h.VOP_GETATTR vp cred).2 vp
          .secadm_integriforce_rule)) with
    | none => simp [secadm_vnode_check_open, hmode, hga, hn, hf]
    | some rule =>
      by_cases hd : rule.sr_active ≠ 0 ∨
          (h.get_prison_list_entry cred.pr_id).sp_integriforce_flags &&&
            c.SECADM_INTEGRIFORCE_FLAGS_WHITELIST ≠ 0
      · left
        refine ⟨rule, hn, rfl, hd, ?_⟩
        simp only [secadm_vnode_check_open, hmode, hga, hn, hf, hd]
        simp [hn]
      · right
        left
        simp only [secadm_vnode_check_open, hmode, hga, hn, hf, hd]
        simp [hn]

/-- The steps of an unlink whose attribute fetch succeeds; `pre` stands for
the steps up to and including the Integrity lookup, if one is made. -/
theorem check_unlink_trace (c : Header) (h : Collaborators) (cred : ucred)
    (dvp vp : vnode) (pre : List Event)
    (hga : (h.VOP_GETATTR vp cred).1 = 0)
    (hpre : pre = [Event.VOP_GETATTR vp, Event.PE_RLOCK] ++
      (if (prison h cred).sp_num_integriforce_rules ≠ 0 then
        [Event.RB_FIND (file_fp c h cred vp .secadm_integriforce_rule)] else [])) :
    (∃ rule, (prison h cred).sp_num_integriforce_rules ≠ 0 ∧
      file_rule c h cred vp .secadm_integriforce_rule = some rule ∧
      (rule.sr_active ≠ 0 ∨ whitelist_mode c (prison h cred)) ∧
      secadm_vnode_check_unlink c h cred dvp vp =
        (EPERM, pre ++ [Event.printf_unlink rule.sr_integriforce_data.si_path,
          Event.PE_RUNLOCK])) ∨
    (∃ rule, (prison h cred).sp_num_pax_rules ≠ 0 ∧
      file_rule c h cred vp .secadm_pax_rule = some rule ∧ rule.sr_active ≠ 0 ∧
      secadm_vnode_check_unlink c h cred dvp vp =
        (EPERM, pre ++ [Event.RB_FIND (file_fp c h cred vp .secadm_pax_rule),
          Event.printf_unlink rule.sr_pax_data.sp_path, Event.PE_RUNLOCK])) ∨
    secadm_vnode_check_unlink c h cred dvp vp =
      (0, pre ++ [Event.RB_FIND (file_fp c h cred vp .secadm_pax_rule), Event.PE_RUNLOCK]) ∨
    secadm_vnode_check_unlink c h cred dvp vp = (0, pre ++ [Event.PE_RUNLOCK]) := by
  subst hpre
  unfold file_rule file_fp whitelist_mode prison
  have hP : ∀ tr : List Event,
      (∃ rule, (h.get_prison_list_entry cred.pr_id).sp_num_pax_rules ≠ 0 ∧
        RB_FIND (h.get_prison_list_entry cred.pr_id).sp_rules
          (fingerprint c (build_key c cred (h.VOP_GETATTR vp cred).2 vp .secadm_pax_rule))
          = some rule ∧ rule.sr_active ≠ 0 ∧
        unlink_pax_rules c (h.get_prison_list_entry cred.pr_id)
            (build_key c cred (h.VOP_GETATTR vp cred).2 vp) tr =
          (EPERM, tr ++ [Event.RB_FIND
            (fingerprint c (build_key c cred (h.VOP_GETATTR vp cred).2 vp .secadm_pax_rule)),
            Event.printf_unlink rule.sr_pax_data.sp_path, Event.PE_RUNLOCK])) ∨
      unlink_pax_rules c (h.get_prison_list_entry cred.pr_id)
          (build_key c cred (h.VOP_GETATTR vp cred).2 vp) tr =
        (0, tr ++ [Event.RB_FIND
          (fingerprint c (build_key c cred (h.VOP_GETATTR vp cred).2 vp .secadm_pax_rule)),
          Event.PE_RUNLOCK]) ∨
      unlink_pax_rules c (h.get_prison_list_entry cred.pr_id)
          (build_key c cred (h.VOP_GETATTR vp cred).2 vp) tr = (0, tr ++ [Event.PE_RUNLOCK]) := by
    intro tr
    by_cases hp : (h.get_prison_list_entry cred.pr_id).sp_num_pax_rules = 0
    · simp [unlink_pax_rules, hp]
    · cases hg : RB_FIND (h.get_prison_list_entry cred.pr_id).sp_rules
          (fingerprint c (build_key c cred (h.VOP_GETATTR vp cred).2 vp .secadm_pax_rule)) with
      | none => simp [unlink_pax_rules, hp, hg]
      | some rule =>
        by_cases ha : rule.sr_active = 0
        · simp [unlink_pax_rules, hp, hg, ha]
        · simp [unlink_pax_rules, hp, hg, ha]
  by_cases hn : (h.get_prison_list_entry cred.pr_id).sp_num_integriforce_rules = 0
  · right
    have hu : secadm_vnode_check_unlink c h cred dvp vp =
        unlink_pax_rules c (h.get_prison_list_entry cred.pr_id)
          (build_key c cred (h.VOP_GETATTR vp cred).2 vp)
          [Event.VOP_GETATTR vp, Event.PE_RLOCK] := by
      simp [secadm_vnode_check_unlink, hga, hn]
    rw [hu]
    simpa [hn] using hP [Event.VOP_GETATTR vp, Event.PE_RLOCK]
  · cases hf : RB_FIND (h.get_prison_list_entry cred.pr_id).sp_rules
        (fingerprint c (build_key c cred (h.VOP_GETATTR vp cred).2 vp
          .secadm_integriforce_rule)) with
    | none =>
      right
      have hu : secadm_vnode_check_unlink c h cred dvp vp =
          unlink_pax_rules c (h.get_prison_list_entry cred.pr_id)
            (build_key c cred (h.VOP_GETATTR vp cred).2 vp)
            [Event.VOP_GETATTR vp, Event.PE_RLOCK, Event.RB_FIND
              (fingerprint c (build_key c cred (h.VOP_GETATTR vp cred).2 vp
                .secadm_integriforce_rule))] := by
        simp [secadm_vnode_check_unlink, hga, hn, hf]
      rw [hu]
      simpa [hn] using hP _
    | some rule =>
      by_cases hd : rule.sr_active ≠ 0 ∨
          (h.get_prison_list_entry cred.pr_id).sp_integriforce_flags &&&
            c.SECADM_INTEGRIFORCE_FLAGS_WHITELIST ≠ 0
      · left
        refine ⟨rule, hn, rfl, hd, ?_⟩
        simp only [secadm_vnode_check_unlink, hga, hn, hf, hd]
        simp [hn]
      · right
        have hu : secadm_vnode_check_unlink c h cred dvp vp =
            unlink_pax_rules c (h.get_prison_list_entry cred.pr_id)
              (build_key c cred (h.VOP_GETATTR vp cred).2 vp)
              [Event.VOP_GETATTR vp, Event.PE_RLOCK, Event.RB_FIND
                (fingerprint c (build_key c cred (h.VOP_GETATTR vp cred).2 vp
                  .secadm_integriforce_rule))] := by
          simp only [secadm_vnode_check_unlink, hga, hn, hf, hd]
          simp [hn]
        rw [hu]
        simpa [hn] using hP _

/-- The part of the accumulated flags inside the force-on flag and inside
the force-off flag of a feature, the note flags being non-zero and pairwise
disjoint. -/
theorem pax_flags_and_feature (c : Header) (d : secadm_pax_data_t)
    (hd : pax_notes_distinct c) :
    ∀ f ∈ pax_features c,
      f.2.2.1 ≠ 0 ∧ f.2.2.2 ≠ 0 ∧
      pax_flags c d 0 &&& f.2.2.1 =
        (if d.sp_pax_set &&& f.1 ≠ 0 then (if d.sp_pax &&& f.2.1 ≠ 0 then f.2.2.1 else 0)
          else 0) ∧
      pax_flags c d 0 &&& f.2.2.2 =
        (if d.sp_pax_set &&& f.1 ≠ 0 then (if d.sp_pax &&& f.2.1 ≠ 0 then 0 else f.2.2.2)
          else 0) := by
  obtain ⟨hnz, hpw, hacl⟩ := hd
  have hpw' : List.Pairwise (fun a b => b &&& a = 0) (pax_notes c) :=
    hpw.imp (fun hab => by rw [Nat.and_comm]; exact hab)
  simp only [pax_notes, List.mem_cons, List.mem_singleton, forall_eq_or_imp, forall_eq,
    List.pairwise_cons, List.not_mem_nil, false_imp_iff, implies_true, and_true,
    List.Pairwise.nil] at hnz hpw hpw'
  intro f hf
  simp only [pax_features, List.mem_cons, List.mem_singleton, List.not_mem_nil, or_false] at hf
  rcases hf with rfl | rfl | rfl | rfl | rfl | rfl
  all_goals
    refine ⟨?_, ?_, ?_, ?_⟩
    · simp [hnz]
    · simp [hnz]
    · rw [pax_flags_and c d _ (fun acl ha => hacl acl ha _ (by simp [pax_notes]))]
      simp only [block_and]
      simp [hpw, hpw']
    · rw [pax_flags_and c d _ (fun acl ha => hacl acl ha _ (by simp [pax_notes]))]
      simp only [block_and]
      simp [hpw, hpw']

/-- C18: the note flags being non-zero and pairwise disjoint, the flags
accumulated from a PaX rule never hold both the force-on and the force-off
flag of one feature, not even in part: for each of the six features, the
accumulated flags share no bit with the force-on flag or share no bit with
the force-off flag, so they do not contain both. -/
theorem pax_flags_exclusive (c : Header) (d : secadm_pax_data_t)
    (hd : pax_notes_distinct c) :
    ∀ f ∈ pax_features c,
      (pax_flags c d 0 &&& f.2.2.1 = 0 ∨ pax_flags c d 0 &&& f.2.2.2 = 0) ∧
      ¬(pax_flags c d 0 &&& f.2.2.1 = f.2.2.1 ∧ pax_flags c d 0 &&& f.2.2.2 = f.2.2.2) := by
  intro f hf
  obtain ⟨hon, hoff, hX, hY⟩ := pax_flags_and_feature c d hd f hf
  rw [hX, hY]
  by_cases hs : d.sp_pax_set &&& f.1 = 0
  · simp [hs, Ne.symm hon]
  · by_cases he : d.sp_pax &&& f.2.1 = 0
    · simp [hs, he, Ne.symm hon]
    · simp [hs, he, Ne.symm hoff]

/-- C18 exercised: a rule that specifies every feature and enables every
feature carries no part of `PAX_NOTE_NOASLR`. -/
theorem pax_flags_exclusive_witness :
    pax_flags sample_header { sp_path := "/bin/ls", sp_pax := 127, sp_pax_set := 8064 } 0 &&&
      sample_header.PAX_NOTE_NOASLR = 0 :=
  (pax_flags_exclusive sample_header { sp_path := "/bin/ls", sp_pax := 127, sp_pax_set := 8064 }
    sample_header_notes_distinct
    (sample_header.SECADM_PAX_ASLR_SET, sample_header.SECADM_PAX_ASLR,
      sample_header.PAX_NOTE_ASLR, sample_header.PAX_NOTE_NOASLR)
    (by simp [pax_features])).1.resolve_left (by decide)

/-- The PaX stage of exec leaves the lock as it found it. -/
theorem exec_pax_flags_lock (c : Header) (entry : secadm_prison_entry_t)
    (key : secadm_rule_type_t → secadm_key_t) (tr : List Event) :
    lock_run (exec_pax_flags c entry key tr).1 = lock_run tr := by
  by_cases hn : entry.sp_num_pax_rules = 0
  · simp [exec_pax_flags, hn]
  · cases hf : RB_FIND entry.sp_rules (fingerprint c (key .secadm_pax_rule)) with
    | none =>
      simp only [exec_pax_flags, hf, lock_run, List.foldl_append]
      simp only [ne_eq, hn, not_false_eq_true, if_true, List.foldl_append]
      cases List.foldl lock_step (some false) tr <;> rfl
    | some rule =>
      by_cases ha : rule.sr_active = 0
      · simp only [exec_pax_flags, hf, lock_run, ha]
        simp only [ne_eq, hn, not_false_eq_true, if_true, List.foldl_append]
        cases List.foldl lock_step (some false) tr <;> rfl
      · simp only [exec_pax_flags, hf, lock_run, ha]
        simp only [ne_eq, hn, not_false_eq_true, if_true, if_false, List.foldl_append]
        cases List.foldl lock_step (some false) tr <;> rfl

/-- The lock along exec up to the label `rule_inactive`: the discipline is
kept, the lock is not held at an early return and is held at the label. -/
theorem exec_rules_lock (c : Header) (h : Collaborators) (cred : ucred)
    (imgp : image_params) :
    match exec_rules c h cred imgp with
    | .inl r => lock_run r.2 = some false
    | .inr p => lock_run p.1 = some true := by
  by_cases h1 : (h.VOP_GETATTR imgp.vp cred).1 = 0
  swap
  · simp [exec_rules, h1, lock_run, lock_step]
  by_cases h2 : h.tpe_check imgp (h.get_prison_list_entry cred.pr_id) = 0
  swap
  · simp [exec_rules, h1, h2, lock_run, lock_step]
  by_cases h3 : (h.get_prison_list_entry cred.pr_id).sp_num_integriforce_rules = 0
  · simp only [exec_rules, h1, h2, h3, ne_eq, not_true_eq_false, not_false_eq_true,
      if_false, if_true]
    rw [exec_pax_flags_lock]
    rfl
  cases hf : RB_FIND (h.get_prison_list_entry cred.pr_id).sp_rules
      (fingerprint c (build_key c cred (h.VOP_GETATTR imgp.vp cred).2 imgp.vp
        .secadm_integriforce_rule)) with
  | none =>
    by_cases h4 : (h.get_prison_list_entry cred.pr_id).sp_integriforce_flags &&&
        c.SECADM_INTEGRIFORCE_FLAGS_WHITELIST = c.SECADM_INTEGRIFORCE_FLAGS_WHITELIST
    · simp [exec_rules, h1, h2, h3, hf, h4, lock_run, lock_step]
    · simp only [exec_rules, h1, h2, h3, hf, h4, ne_eq, not_true_eq_false, not_false_eq_true,
        if_false, if_true]
      rw [exec_pax_flags_lock]
      rfl
  | some rule =>
    by_cases h5 : rule.sr_active = 0
    · simp [exec_rules, h1, h2, h3, hf, h5, lock_run, lock_step]
    · by_cases h6 : h.do_integriforce_check rule (h.VOP_GETATTR imgp.vp cred).2 imgp.vp cred = 0
      · simp only [exec_rules, h1, h2, h3, hf, h5, h6, ne_eq, not_true_eq_false,
          not_false_eq_true, if_false, if_true]
        rw [exec_pax_flags_lock]
        rfl
      · simp [exec_rules, h1, h2, h3, hf, h5, h6, lock_run, lock_step]

/-- Once the discipline is broken it stays broken. -/
theorem lock_step_none (tr : List Event) : tr.foldl lock_step none = none := by
  induction tr with
  | nil => rfl
  | cons e rest ih => simpa [List.foldl_cons, lock_step] using ih

/-- Along steps that keep the discipline, acquisitions and releases
balance: their numbers differ by the change of the lock state. -/
theorem lock_run_count (tr : List Event) : ∀ b b' : Bool,
    tr.foldl lock_step (some b) = some b' →
    tr.count Event.PE_RLOCK + b.toNat = tr.count Event.PE_RUNLOCK + b'.toNat := by
  induction tr with
  | nil =>
    intro b b' hb
    simp only [List.foldl_nil, Option.some.injEq] at hb
    simp [hb]
  | cons e rest ih =>
    intro b b' hb
    rw [List.foldl_cons] at hb
    cases e <;> cases b <;>
      simp only [lock_step, Bool.false_eq_true, if_false, if_true, lock_step_none] at hb <;>
      first
      | exact absurd hb (by simp)
      | skip
    all_goals
      have hc := ih _ _ hb
      simp [List.count_cons] at hc ⊢
      omega

/-- C19: with the read lock as explicit state (acquiring while held,
releasing while not held and calling the verifier while held all count as
breaking the discipline), every run of exec, write-open and unlink keeps
the discipline and ends with the lock not held; in each run the number of
acquisitions equals the number of releases. -/
theorem lock_discipline (c : Header) (h : Collaborators) (cred : ucred)
    (dvp vp : vnode) (imgp : image_params) (accmode : Nat) :
    (lock_run (secadm_vnode_check_exec c h cred vp imgp).2 = some false ∧
      (secadm_vnode_check_exec c h cred vp imgp).2.count Event.PE_RLOCK =
        (secadm_vnode_check_exec c h cred vp imgp).2.count Event.PE_RUNLOCK) ∧
    (lock_run (secadm_vnode_check_open c h cred vp accmode).2 = some false ∧
      (secadm_vnode_check_open c h cred vp accmode).2.count Event.PE_RLOCK =
        (secadm_vnode_check_open c h cred vp accmode).2.count Event.PE_RUNLOCK) ∧
    (lock_run (secadm_vnode_check_unlink c h cred dvp vp).2 = some false ∧
      (secadm_vnode_check_unlink c h cred dvp vp).2.count Event.PE_RLOCK =
        (secadm_vnode_check_unlink c h cred dvp vp).2.count Event.PE_RUNLOCK) := by
  have hcount : ∀ tr : List Event, lock_run tr = some false →
      lock_run tr = some false ∧ tr.count Event.PE_RLOCK = tr.count Event.PE_RUNLOCK := by
    intro tr ht
    refine ⟨ht, ?_⟩
    have := lock_run_count tr false false ht
    simpa using this
  refine ⟨hcount _ ?_, hcount _ ?_, hcount _ ?_⟩
  · have hl := exec_rules_lock c h cred imgp
    rw [check_exec_eq]
    cases hr : exec_rules c h cred imgp with
    | inl r =>
      rw [hr] at hl
      exact hl
    | inr p =>
      rw [hr] at hl
      simp only [] at hl ⊢
      unfold lock_run at hl ⊢
      unfold exec_rule_inactive
      split_ifs
      · simp only [List.foldl_append, hl]
        rfl
      · simp only [List.foldl_append, hl]
        rfl
  · by_cases hmode : accmode &&& (VWRITE ||| VAPPEND) = 0
    · simp [secadm_vnode_check_open, hmode, lock_run]
    · by_cases hga : (h.VOP_GETATTR vp cred).1 = 0
      · rcases check_open_trace c h cred vp accmode hmode hga with
          ⟨rule, _, _, _, he⟩ | he | he <;> rw [he] <;> rfl
      · simp [secadm_vnode_check_open, hmode, hga, lock_run, lock_step]
  · by_cases hga : (h.VOP_GETATTR vp cred).1 = 0
    · have hpre : lock_run ([Event.VOP_GETATTR vp, Event.PE_RLOCK] ++
          (if (prison h cred).sp_num_integriforce_rules ≠ 0 then
            [Event.RB_FIND (file_fp c h cred vp .secadm_integriforce_rule)]
          else [])) = some true := by
        split_ifs <;> rfl
      unfold lock_run at hpre ⊢
      rcases check_unlink_trace c h cred dvp vp _ hga rfl with
        ⟨rule, _, _, _, he⟩ | ⟨rule, _, _, _, he⟩ | he | he <;>
      · rw [he]
        simp only [List.foldl_append, hpre]
        rfl
    · simp [secadm_vnode_check_unlink, hga, lock_run, lock_step]

/-- C19 exercised: an exec that calls the verifier and the enforcement
entry point. -/
theorem lock_discipline_witness :
    lock_run (secadm_vnode_check_exec sample_header
        (sample_host
          { sp_rules := .node .leaf
              (sample_rule sample_fp_integriforce .secadm_integriforce_rule 1 0 0)
              (.node .leaf (sample_rule sample_fp_pax .secadm_pax_rule 1 63 7968) .leaf)
            sp_num_integriforce_rules := 1
            sp_num_pax_rules := 1
            sp_integriforce_flags := 1 } 0 0 7)
        sample_cred sample_vp sample_imgp).2 = some false :=
  (lock_discipline sample_header _ sample_cred sample_vp sample_vp sample_imgp VWRITE).1.1

/-- C20, as stated, fails in its account of the converse: with an inactive
Integrity rule and an active PaX rule for the file, whitelist mode not set,
unlink returns `EPERM` and a write-open returns 0, although an Integrity
rule matches the file as well. -/
theorem unlink_denies_open_allows :
    file_rule sample_header
      (sample_host
        { sp_rules := .node .leaf
            (sample_rule sample_fp_integriforce .secadm_integriforce_rule 0 0 0)
            (.node .leaf (sample_rule sample_fp_pax .secadm_pax_rule 1 63 7968) .leaf)
          sp_num_integriforce_rules := 1
          sp_num_pax_rules := 1
          sp_integriforce_flags := 0 } 0 0 0)
      sample_cred sample_vp .secadm_integriforce_rule =
      some (sample_rule sample_fp_integriforce .secadm_integriforce_rule 0 0 0) ∧
    (secadm_vnode_check_unlink sample_header
      (sample_host
        { sp_rules := .node .leaf
            (sample_rule sample_fp_integriforce .secadm_integriforce_rule 0 0 0)
            (.node .leaf (sample_rule sample_fp_pax .secadm_pax_rule 1 63 7968) .leaf)
          sp_num_integriforce_rules := 1
          sp_num_pax_rules := 1
          sp_integriforce_flags := 0 } 0 0 0)
      sample_cred sample_vp sample_vp).1 = EPERM ∧
    (secadm_vnode_check_open sample_header
      (sample_host
        { sp_rules := .node .leaf
            (sample_rule sample_fp_integriforce .secadm_integriforce_rule 0 0 0)
            (.node .leaf (sample_rule sample_fp_pax .secadm_pax_rule 1 63 7968) .leaf)
          sp_num_integriforce_rules := 1
          sp_num_pax_rules := 1
          sp_integriforce_flags := 0 } 0 0 0)
      sample_cred sample_vp VWRITE).1 = 0 := by
  refine ⟨by decide, by decide, by decide⟩

/-- C20, amended: for a file whose attribute fetch succeeds, whenever
write-open returns `EPERM`, unlink returns `EPERM` in the same state, for
every access mode.  For a mode with `VWRITE` or `VAPPEND`, unlink returns
`EPERM` while write-open does not exactly when the PaX check denies (the
PaX counter is non-zero and the lookup under the PaX fingerprint of the
file finds an active rule) and the Integrity check does not deny (the
Integrity counter is zero, or the lookup under the Integrity fingerprint
finds nothing, or it finds an inactive rule while whitelist mode is not
set). -/
theorem unlink_at_least_as_restrictive (c : Header) (h : Collaborators) (cred : ucred)
    (dvp vp : vnode) (hga : (h.VOP_GETATTR vp cred).1 = 0) :
    (∀ accmode, (secadm_vnode_check_open c h cred vp accmode).1 = EPERM →
      (secadm_vnode_check_unlink c h cred dvp vp).1 = EPERM) ∧
    (∀ accmode, accmode &&& (VWRITE ||| VAPPEND) ≠ 0 →
      (((secadm_vnode_check_unlink c h cred dvp vp).1 = EPERM ∧
          (secadm_vnode_check_open c h cred vp accmode).1 ≠ EPERM) ↔
        ((prison h cred).sp_num_pax_rules ≠ 0 ∧
          ∃ rule, file_rule c h cred vp .secadm_pax_rule = some rule ∧ rule.sr_active ≠ 0) ∧
        ¬((prison h cred).sp_num_integriforce_rules ≠ 0 ∧
          ∃ rule, file_rule c h cred vp .secadm_integriforce_rule = some rule ∧
            (rule.sr_active ≠ 0 ∨ whitelist_mode c (prison h cred))))) := by
  have hE : (0 : Int) ≠ EPERM := by decide
  have hu := check_unlink_code c h cred dvp vp hga
  have ho : ∀ accmode, accmode &&& (VWRITE ||| VAPPEND) ≠ 0 →
      (secadm_vnode_check_open c h cred vp accmode).1 =
        if ((prison h cred).sp_num_integriforce_rules ≠ 0 ∧
          ∃ rule, file_rule c h cred vp .secadm_integriforce_rule = some rule ∧
            (rule.sr_active ≠ 0 ∨ whitelist_mode c (prison h cred))) then EPERM else 0 := by
    intro accmode hmode
    rw [check_open_code c h cred vp accmode hmode hga]
    by_cases hn : (prison h cred).sp_num_integriforce_rules = 0
    · simp [hn]
    · cases hf : file_rule c h cred vp .secadm_integriforce_rule with
      | none => simp [hn]
      | some rule =>
        by_cases hd : rule.sr_active ≠ 0 ∨ whitelist_mode c (prison h cred)
        · simp [hn, hd]
        · simp [hn, hd]
  constructor
  · intro accmode he
    by_cases hmode : accmode &&& (VWRITE ||| VAPPEND) = 0
    · simp [secadm_vnode_check_open, hmode] at he
      exact absurd he hE
    · rw [ho accmode hmode] at he
      rw [hu]
      split_ifs at he with hA
      · rw [if_pos hA]
      · exact absurd he hE
  · intro accmode hmode
    have key : ∀ (A B : Prop) [Decidable A] [Decidable B],
        (((if A then EPERM else if B then EPERM else 0) = EPERM ∧
          (if A then EPERM else (0 : Int)) ≠ EPERM) ↔ B ∧ ¬A) := by
      intro A B _ _
      by_cases hA : A <;> by_cases hB : B <;> simp [hA, hB, hE]
    rw [ho accmode hmode, hu]
    exact key _ _

/-- C20 amended, exercised: a write-open denied by an active Integrity rule;
unlink is denied too. -/
theorem unlink_at_least_as_restrictive_witness :
    (secadm_vnode_check_unlink sample_header
      (sample_host
        { sp_rules := .node .leaf
            (sample_rule sample_fp_integriforce .secadm_integriforce_rule 1 0 0) .leaf
          sp_num_integriforce_rules := 1
          sp_num_pax_rules := 0
          sp_integriforce_flags := 0 } 0 0 0)
      sample_cred sample_vp sample_vp).1 = EPERM :=
  (unlink_at_least_as_restrictive sample_header
    (sample_host
      { sp_rules := .node .leaf
          (sample_rule sample_fp_integriforce .secadm_integriforce_rule 1 0 0) .leaf
        sp_num_integriforce_rules := 1
        sp_num_pax_rules := 0
        sp_integriforce_flags := 0 } 0 0 0)
    sample_cred sample_vp sample_vp (by decide)).1 VWRITE (by decide)

end Secadm
